import Mathlib

/-!
Formal model (shallow embedding) of tensorflow/dtensor/mlir/dtensor_send_recv.cc:
the lowering of abstract DTensorSend/DTensorRecv ops to concrete backend
communication primitives. Pure data records (meshes, layouts, op records) mirror
the structures consulted by the source; each lowering function is embedded as a
function from its inputs and surrounding-context data to a result record that
describes the emitted ops and the graph side effects (erasures, use
redirections), or to a typed Status failure, or to a crash (failed assertion or
undefined behaviour such as a null-handle dereference / out-of-bounds access).
-/

set_option autoImplicit false
set_option linter.unusedVariables false

namespace DTensor

/-- Element types of tensors crossing the send/recv boundary. -/
inductive ElemTy where
  | i32
  | i64
  | f32
  | str
deriving DecidableEq, Repr

/-- A (ranked) tensor type: shape plus element type. -/
structure TensorTy where
  shape : List Nat
  elem : ElemTy
deriving DecidableEq, Repr

/-- Typed Status error payloads (the tensorflow error codes relevant here). -/
inductive Err where
  | invalidArgument (msg : String)
  | internal (msg : String)
  | unimplemented (msg : String)
deriving DecidableEq, Repr

/-- Outcome of a lowering step: a value, a typed Status failure propagated to
the caller, or a crash (failed `assert` / undefined behaviour such as a
null-handle dereference or an out-of-bounds access), which never reaches the
caller as a value. -/
inductive Res (α : Type) where
  | ok (a : α)
  | fail (e : Err)
  | crash
deriving DecidableEq, Repr

def Res.bind {α β : Type} : Res α → (α → Res β) → Res β
  | .ok a, f => f a
  | .fail e, _ => .fail e
  | .crash, _ => .crash

instance : Monad Res where
  pure := Res.ok
  bind := Res.bind

/-- Whether a result is a typed Status failure (of any kind). -/
def typedFailure {α : Type} : Res α → Bool
  | .fail _ => true
  | _ => false

/-- Whether a result is an invalid-argument typed Status failure. -/
def invalidArgFailure {α : Type} : Res α → Bool
  | .fail (.invalidArgument _) => true
  | _ => false

/-- Every typed failure this result can be is an invalid-argument failure
(crashes and successes are unconstrained). -/
def Res.iaOnly {α : Type} (r : Res α) : Prop :=
  typedFailure r = true → invalidArgFailure r = true

/-- Indexing into a span/vector (`operand[i]`): out of bounds is undefined
behaviour in the source, modelled as a crash. -/
def idx {α : Type} (l : List α) (i : Nat) : Res α :=
  match l.get? i with
  | some a => .ok a
  | none => .crash

/-- A mesh, as consulted by this pass: total device count, the mesh-relative
ids of the local devices, the local device name strings, and the backend kind
string ("CPU", "TPU", "GPU"). -/
structure Mesh where
  num_devices : Nat
  local_device_ids : List Nat
  local_devices : List String
  device_type : String
deriving DecidableEq, Repr

def Mesh.is_tpu_mesh (m : Mesh) : Bool := m.device_type == "TPU"

def Mesh.is_cpu_mesh (m : Mesh) : Bool := m.device_type == "CPU"

/-- The backend kind the spec calls a "non-accelerator discrete device": the
discrete GPU backend, as opposed to the TPU accelerator (whose later
accelerator-specific rewriting passes need the abstract op kept alive) and the
host CPU. -/
def Mesh.nonAcceleratorDiscrete (m : Mesh) : Prop := m.device_type = "GPU"

instance (m : Mesh) : Decidable m.nonAcceleratorDiscrete :=
  inferInstanceAs (Decidable (m.device_type = "GPU"))

/-- A layout, as consulted by this pass: the owning mesh and the serialized
string form (`Layout::ToString`) used for the custom-device attribute. -/
structure Layout where
  mesh : Mesh
  str : String
deriving DecidableEq, Repr

/-- The enclosing `func.FuncOp`, as the lowering consults it: only the
device-id accessor matters here. `deviceId?` is the runtime current-device id
available through the accessor (`none` when the accessor is unavailable). -/
structure FuncOp where
  deviceId? : Option Nat
deriving DecidableEq, Repr

/-- The abstract DTensorSend op: transfer key, operand value (an id) and its
type, and the target layout. `opName`/`opHash` model `OpName(op)`/`OpHash(op)`
from op_utils, the op identity and structural hash used for branch names. -/
structure DTensorSend where
  opName : String
  opHash : Nat
  key : String
  input : Nat
  inputType : TensorTy
  target_layout : Layout
deriving DecidableEq, Repr

/-- The abstract DTensorRecv op: transfer key, its layout, and its result
type. `opName`/`opHash` model `OpName(op)`/`OpHash(op)` from op_utils. -/
structure DTensorRecv where
  opName : String
  opHash : Nat
  key : String
  layout : Layout
  type : TensorTy
deriving DecidableEq, Repr

/-- Surrounding context of an abstract op, as recovered via `getParentOfType`:
the enclosing `tf_device.ClusterOp` (an id into the module state) and that
cluster enclosing `func.FuncOp`; `none` models `getParentOfType` finding
nothing (a null handle). -/
structure OpCtx where
  parentCluster? : Option Nat
  clusterFunc? : Option FuncOp
deriving DecidableEq, Repr

/-- An op inside a cluster body, as far as the compilation-key walk cares: its
id, whether it is a `_TPUCompileMlirPlaceholderProgramKey` op, and its result
type. -/
structure KeyOp where
  id : Nat
  isPlaceholder : Bool
  ty : TensorTy
deriving DecidableEq, Repr

/-- A `tf_device.ClusterOp`: its id, its mesh attribute (consulted by
`ExtractDeviceMeshFromOp`), and its body. -/
structure Cluster where
  cid : Nat
  meshAttr : Option Mesh
  body : List KeyOp
deriving DecidableEq, Repr

/-- The module-level state the compilation-key provider reads and writes: the
clusters and a fresh-id counter for newly created ops. -/
structure MState where
  clusters : List Cluster
  nextId : Nat
deriving DecidableEq, Repr

/-- A compilation-key handle: the result value of a placeholder op, identified
by the cluster holding the op and the op id. -/
structure KeyValue where
  cluster : Nat
  op : Nat
deriving DecidableEq, Repr

def findCluster (s : MState) (cid : Nat) : Option Cluster :=
  s.clusters.find? (fun c => c.cid == cid)

def clusterPlaceholders (c : Cluster) : List KeyOp :=
  c.body.filter (fun o => o.isPlaceholder)

/-- GetOrCreateCompilationKey (lines 42-60). The walk over the cluster body
assigns `key` at every placeholder it visits, so the value returned when
placeholders exist is the last one in walk order; otherwise a fresh placeholder
op with a 3-element string-tensor result type is created at the start of the
cluster body. `assert(cluster)` (and the walk over a null handle) makes an
absent cluster a crash. -/
def getOrCreateCompilationKeyAt (s : MState) (cid : Nat) :
    Res (KeyValue × MState) :=
  match findCluster s cid with
  | none => .crash
  | some c =>
    match (clusterPlaceholders c).getLast? with
    | some p => .ok (⟨c.cid, p.id⟩, s)
    | none =>
      let newOp : KeyOp := ⟨s.nextId, true, ⟨[3], ElemTy.str⟩⟩
      let c' : Cluster := { c with body := newOp :: c.body }
      .ok (⟨c.cid, s.nextId⟩,
        { clusters := s.clusters.map (fun d => if d.cid == c.cid then c' else d),
          nextId := s.nextId + 1 })

def GetOrCreateCompilationKey (s : MState) (parentCluster? : Option Nat) :
    Res (KeyValue × MState) :=
  match parentCluster? with
  | none => .crash
  | some cid => getOrCreateCompilationKeyAt s cid

/-- Modelled from the spec: `ExtractDeviceMeshFromOp` (spmd_expander_common,
not under src/) — reads the mesh attribute attached to the surrounding cluster
op; `none` models "the device/mesh information ... cannot be extracted". -/
def ExtractDeviceMeshFromOp (s : MState) (cid : Nat) : Res (Option Mesh) :=
  match findCluster s cid with
  | some c => .ok c.meshAttr
  | none => .crash

/-- Modelled from the spec: `DeviceId` (device_utils, not under src/) — reads
the current-device-id accessor of the enclosing function; per spec section 4.1
the resolver "fails with an invalid-argument condition if the function
device-id accessor is unavailable". A null function handle is a precondition
violation (crash). -/
def DeviceId : Option FuncOp → Res Nat
  | none => .crash
  | some f =>
    match f.deviceId? with
    | none => .fail (.invalidArgument "device id accessor unavailable")
    | some d => .ok d

/-- The loop of GetDeviceOrdinal (lines 73-75): write each local ordinal `i`
into the table at index `local_device_ids()[i]`; an out-of-range id is an
out-of-bounds write (crash). -/
def fillTable : List Nat → Nat → List Nat → Res (List Nat)
  | [], _, t => .ok t
  | id :: rest, i, t =>
    if id < t.length then fillTable rest (i + 1) (t.set id i) else .crash

/-- A scalar integer value together with its bit width (32 or 64). -/
structure OrdinalVal where
  value : Nat
  width : Nat
deriving DecidableEq, Repr

/-- GetDeviceOrdinal (lines 64-94), denotationally: the scalar value computed
by the emitted constant-table / slice / reshape ops, given the runtime device
id, widened to 64 bits by the emitted cast when `return_int64_type`. -/
def GetDeviceOrdinal (mesh : Mesh) (function? : Option FuncOp)
    (return_int64_type : Bool := false) : Res OrdinalVal := do
  let table ← fillTable mesh.local_device_ids 0
    (List.replicate mesh.num_devices 0)
  let device_id ← DeviceId function?
  let ordinal ← idx table device_id
  if return_int64_type then
    pure ⟨ordinal, 64⟩
  else
    pure ⟨ordinal, 32⟩

/-- A `tf._HostSend` op record. `V` is the type used for the operand value (a
global value id, or a branch-local value). The builder-default of the
`client_terminated` attribute is false. -/
structure HostSendOp (V : Type) where
  input : V
  tensor_name : String
  send_device : String
  send_device_incarnation : Nat
  recv_device : String
  client_terminated : Bool
deriving DecidableEq, Repr

/-- A `tf._HostRecv` op record. -/
structure HostRecvOp where
  outTy : TensorTy
  tensor_name : String
  send_device : String
  send_device_incarnation : Nat
  recv_device : String
deriving DecidableEq, Repr

/-- Result of LowerDTensorSendToTFOp: the emitted `tf._HostSend` and whether
the abstract op was erased before returning. -/
structure SendToTFRes where
  op : HostSendOp Nat
  erased : Bool
deriving DecidableEq, Repr

/-- LowerDTensorSendToTFOp (lines 96-117): host-to-host single-target send. -/
def LowerDTensorSendToTFOp (send_input_layout : Layout) (send_input : Nat)
    (dtensor_send : DTensorSend) : Res SendToTFRes := do
  let tensor_name := dtensor_send.key
  let target_layout := dtensor_send.target_layout
  let sending_devices := send_input_layout.mesh.local_devices
  let receiving_devices := target_layout.mesh.local_devices
  let sd ← idx sending_devices 0
  let rd ← idx receiving_devices 0
  pure { op := { input := send_input, tensor_name := tensor_name,
                 send_device := sd, send_device_incarnation := 0,
                 recv_device := rd, client_terminated := false },
         erased := true }

/-- Result of LowerDTensorRecvToTFOp: the emitted `tf._HostRecv`, whether the
abstract op was erased, and whether its result uses were redirected. -/
structure RecvToTFRes where
  op : HostRecvOp
  erased : Bool
  redirected : Bool
deriving DecidableEq, Repr

/-- LowerDTensorRecvToTFOp (lines 290-310): host-to-host single-target
receive. The source neither erases the abstract op nor redirects its uses. -/
def LowerDTensorRecvToTFOp (send_mesh : Mesh) (dtensor_recv : DTensorRecv)
    (output_type : TensorTy) (ctx : OpCtx) : Res RecvToTFRes :=
  match ctx.parentCluster? with
  | none => .crash
  | some _ => do
    let tensor_name := dtensor_recv.key
    let sending_devices := send_mesh.local_devices
    let receiving_devices := dtensor_recv.layout.mesh.local_devices
    let sd ← idx sending_devices 0
    let rd ← idx receiving_devices 0
    pure { op := { outTy := output_type, tensor_name := tensor_name,
                   send_device := sd, send_device_incarnation := 0,
                   recv_device := rd },
           erased := false, redirected := false }

/-- The concrete op emitted by LowerDTensorSendToXlaOp. -/
inductive XlaSendOp where
  | fromHost (values : List Nat) (programKey : KeyValue)
      (deviceOrdinal : OrdinalVal) (key : String)
  | toHost (value : Nat) (key : String)
deriving DecidableEq, Repr

/-- Result of LowerDTensorSendToXlaOp. -/
structure SendToXlaRes where
  op : XlaSendOp
  erased : Bool
  state : MState
deriving DecidableEq, Repr

/-- LowerDTensorSendToXlaOp (lines 121-166). Note the source calls
GetOrCreateCompilationKey (which asserts the cluster) before the explicit
missing-cluster check, so for an absent cluster the crash happens first. -/
def LowerDTensorSendToXlaOp (send_input_layout : Layout) (send_input : Nat)
    (dtensor_send : DTensorSend) (ctx : OpCtx) (s : MState)
    (send_from_device_zero : Bool) : Res SendToXlaRes :=
  let send_from_cpu := !send_input_layout.mesh.is_tpu_mesh
  if send_from_cpu then do
    let pk ← GetOrCreateCompilationKey s ctx.parentCluster?
    let device_ordinal ←
      if send_from_device_zero then
        pure (⟨0, 32⟩ : OrdinalVal)
      else
        match ctx.parentCluster? with
        | none => Res.fail (.invalidArgument "DTensorSend is not inside a ClusterOp")
        | some _ =>
          match ctx.clusterFunc? with
          | none => Res.fail (.invalidArgument "DTensorSend is not inside a FuncOp")
          | some f => GetDeviceOrdinal send_input_layout.mesh (some f)
    pure { op := .fromHost [send_input] pk.1 device_ordinal dtensor_send.key,
           erased := true, state := pk.2 }
  else
    pure { op := .toHost send_input dtensor_send.key,
           erased := true, state := s }

/-- The concrete op emitted by LowerDTensorRecvToXlaOp. -/
inductive XlaRecvOp where
  | atHost (outTy : TensorTy) (programKey : KeyValue)
      (deviceOrdinal : OrdinalVal) (key : String)
  | fromHost (outTy : TensorTy) (shapeAttr : List Nat) (key : String)
deriving DecidableEq, Repr

/-- Result of LowerDTensorRecvToXlaOp. -/
structure RecvToXlaRes where
  op : XlaRecvOp
  erased : Bool
  redirected : Bool
  state : MState
deriving DecidableEq, Repr

/-- LowerDTensorRecvToXlaOp (lines 183-227). The cluster handle is used
(GetBody, getParentOfType, ExtractDeviceMeshFromOp) without a null check, so
an absent cluster is a crash; an unresolvable mesh is the explicit
invalid-argument failure of lines 197-200. The source neither erases the
abstract op nor redirects its uses. -/
def LowerDTensorRecvToXlaOp (dtensor_recv : DTensorRecv)
    (output_type : TensorTy) (ctx : OpCtx) (s : MState) : Res RecvToXlaRes :=
  let recv_at_cpu := dtensor_recv.layout.mesh.is_cpu_mesh
  if recv_at_cpu then
    match ctx.parentCluster? with
    | none => .crash
    | some cid => do
      let mesh? ← ExtractDeviceMeshFromOp s cid
      match mesh? with
      | none =>
        Res.fail (.invalidArgument
          "failed to get device ordinal as mesh for operation is not specified.")
      | some mesh => do
        let device_ordinal ← GetDeviceOrdinal mesh ctx.clusterFunc?
        let pk ← GetOrCreateCompilationKey s ctx.parentCluster?
        pure { op := .atHost output_type pk.1 device_ordinal dtensor_recv.key,
               erased := false, redirected := false, state := pk.2 }
  else
    pure { op := .fromHost output_type dtensor_recv.type.shape dtensor_recv.key,
           erased := false, redirected := false, state := s }

/-- Result of LowerDTensorSendFromCPUToTFOp: the emitted `tf._HostSend` ops in
creation order and whether the abstract op was erased. -/
structure FanOutSendRes where
  ops : List (HostSendOp Nat)
  erased : Bool
deriving DecidableEq, Repr

/-- LowerDTensorSendFromCPUToTFOp (lines 230-258): one `tf._HostSend` per
receiving local device, each carrying the DTensorSend operand and the first
sending device name. With no receiving device the loop never runs and the
function returns an uninitialized pointer (crash). -/
def LowerDTensorSendFromCPUToTFOp (send_input_layout : Layout)
    (send_input : Nat) (dtensor_send : DTensorSend) : Res FanOutSendRes :=
  let sending_devices := send_input_layout.mesh.local_devices
  let receiving_devices := dtensor_send.target_layout.mesh.local_devices
  let tensor_name := dtensor_send.key
  match receiving_devices with
  | [] => .crash
  | _ :: _ => do
    let sd ← idx sending_devices 0
    pure { ops := receiving_devices.map (fun rd =>
             { input := dtensor_send.input, tensor_name := tensor_name,
               send_device := sd, send_device_incarnation := 0,
               recv_device := rd, client_terminated := false }),
           erased := true }

/-- Result of LowerDTensorRecvFromCPUToTFOp: the emitted `tf._HostRecv` ops in
creation order, the index of the op whose result replaced the abstract op
result uses, and whether the abstract op was erased. -/
structure FanOutRecvRes where
  ops : List HostRecvOp
  redirect : Option Nat
  erased : Bool
deriving DecidableEq, Repr

/-- LowerDTensorRecvFromCPUToTFOp (lines 261-288): one `tf._HostRecv` per
receiving local device; all uses of the abstract op result are replaced with
the result of the last-created receive, then the abstract op is erased. The
cluster handle is used without a null check (crash when absent); with no
receiving device the result pointer stays uninitialized (crash). -/
def LowerDTensorRecvFromCPUToTFOp (send_mesh : Mesh)
    (dtensor_recv : DTensorRecv) (ctx : OpCtx) : Res FanOutRecvRes :=
  match ctx.parentCluster? with
  | none => .crash
  | some _ =>
    let sending_devices := send_mesh.local_devices
    let receiving_devices := dtensor_recv.layout.mesh.local_devices
    let tensor_name := dtensor_recv.key
    match receiving_devices with
    | [] => .crash
    | _ :: _ => do
      let sd ← idx sending_devices 0
      pure { ops := receiving_devices.map (fun rd =>
               { outTy := dtensor_recv.type, tensor_name := tensor_name,
                 send_device := sd, send_device_incarnation := 0,
                 recv_device := rd }),
             redirect := some (receiving_devices.length - 1),
             erased := true }

/-- Little-endian base-10 digits with explicit fuel (the fuel argument makes
the recursion structural; `natDigits` below instantiates it sufficiently). -/
def natDigitsAux : Nat → Nat → List Nat
  | 0, _ => []
  | _ + 1, 0 => []
  | fuel + 1, n + 1 => (n + 1) % 10 :: natDigitsAux fuel ((n + 1) / 10)

/-- Little-endian base-10 digits of `n`. -/
def natDigits (n : Nat) : List Nat := natDigitsAux n n

def digitChar (d : Nat) : Char := Char.ofNat (48 + d)

/-- Decimal rendering of a natural number, as `llvm::formatv` prints integer
format arguments. -/
def natDecStr (n : Nat) : String :=
  if n = 0 then "0" else String.mk (((natDigits n).map digitChar).reverse)

/-- Decimal decoding, a left inverse of `natDecStr` used to prove it
injective. -/
def decodeDec (s : String) : Nat :=
  s.data.foldl (fun acc c => acc * 10 + (c.toNat - 48)) 0

/-- The branch subprogram name: `llvm::formatv(fmt, OpName(op), OpHash(op),
it.index())` where fmt interleaves the literal pieces `mid` (for example
"_send_") and "_" between the three format arguments. -/
def branchFmt (mid : String) (opName : String) (opHash : Nat) (i : Nat) :
    String :=
  opName ++ mid ++ natDecStr opHash ++ "_" ++ natDecStr i

/-- The list of branch subprogram names generated for `n` device pairs
starting at pair index `i`. -/
def namesFrom (mid opName : String) (opHash : Nat) : Nat → Nat → List String
  | _, 0 => []
  | i, n + 1 =>
    branchFmt mid opName opHash i :: namesFrom mid opName opHash (i + 1) n

/-- A generated branch subprogram: its symbol name, its private visibility,
and its body (the single transfer op built by `fn`). -/
structure BranchGen (β : Type) where
  name : String
  visibility_private : Bool
  body : β
deriving DecidableEq, Repr

/-- GenerateBranches (lines 313-344): for every enumerated value build a
private `func.FuncOp` named from the op identity, the op structural hash and
the index, insert it into the module symbol table, and collect the symbol
references forming the branch table. The symbol table is modelled as the list
of symbol names, insertion as appending. -/
def GenerateBranches {α β : Type} (opName : String) (opHash : Nat)
    (mid : String) (fn : α → β) :
    List String → Nat → List α → List (BranchGen β) × List String
  | symbols, _, [] => ([], symbols)
  | symbols, i, v :: rest =>
    let name := branchFmt mid opName opHash i
    let r := GenerateBranches opName opHash mid fn (symbols ++ [name]) (i + 1) rest
    (⟨name, true, fn v⟩ :: r.1, r.2)

/-- A value inside a branch subprogram body: the block argument, or the result
of the widening cast inserted before the send. -/
inductive BVal where
  | arg
  | castResult
deriving DecidableEq, Repr

/-- The body of one send branch subprogram: the custom-device layout attribute
set on the argument, the optional widening cast (i32 to i64), and the
`tf._HostSend` bound to the device pair of this branch. -/
structure SendBranchBody where
  argLayoutAttr : String
  cast? : Option TensorTy
  send : HostSendOp BVal
deriving DecidableEq, Repr

/-- The branch-body builder lambda of LowerOneToOneDTensorSendToTFHostSend
(lines 373-393): set the custom-device layout attribute on the argument,
widen a 32-bit integer argument to 64 bits, and build the `tf._HostSend`
bound to this device pair. -/
def sendBranchFn (send_layout : Layout) (dtensor_send : DTensorSend)
    (i32_copy : Bool) : String × String → SendBranchBody :=
  fun pair =>
    { argLayoutAttr := send_layout.str,
      cast? := if i32_copy then some ⟨dtensor_send.inputType.shape, ElemTy.i64⟩
               else none,
      send := { input := if i32_copy then BVal.castResult else BVal.arg,
                tensor_name := dtensor_send.key,
                send_device := pair.1,
                send_device_incarnation := 0,
                recv_device := pair.2,
                client_terminated := false } }

/-- Result of LowerOneToOneDTensorSendToTFHostSend: the generated branch
subprograms, the module symbol table after their insertion, and the emitted
`tf.Case` construct (branch index operand, branch table, statelessness),
plus whether the abstract op was erased. -/
structure OneToOneSendRes where
  branches : List (BranchGen SendBranchBody)
  symbols : List String
  case_branch_index : OrdinalVal
  case_branch_table : List String
  case_is_stateless : Bool
  erased : Bool
deriving DecidableEq, Repr

/-- LowerOneToOneDTensorSendToTFHostSend (lines 347-409). The enclosing
cluster and functions are recovered with unchecked `getParentOfType` calls and
the extracted optional mesh is dereferenced without a has_value check, so their
absence is a crash, not a typed failure. The abstract op is erased iff the
receiving mesh backend is "GPU". -/
def LowerOneToOneDTensorSendToTFHostSend (send_layout : Layout)
    (recv_mesh : Mesh) (dtensor_send : DTensorSend) (ctx : OpCtx) (s : MState)
    (module_symbols : List String) : Res OneToOneSendRes :=
  let send_mesh := send_layout.mesh
  let i32_copy := dtensor_send.inputType.elem == ElemTy.i32
  let device_pairs := send_mesh.local_devices.zip recv_mesh.local_devices
  match ctx.parentCluster? with
  | none => .crash
  | some cid => do
    let mesh? ← ExtractDeviceMeshFromOp s cid
    match mesh? with
    | none => Res.crash
    | some mesh => do
      let device_ordinal ← GetDeviceOrdinal mesh ctx.clusterFunc? false
      let gen := GenerateBranches dtensor_send.opName dtensor_send.opHash
        "_send_" (sendBranchFn send_layout dtensor_send i32_copy)
        module_symbols 0 device_pairs
      pure { branches := gen.1,
             symbols := gen.2,
             case_branch_index := device_ordinal,
             case_branch_table := gen.1.map (fun b => b.name),
             case_is_stateless := false,
             erased := recv_mesh.device_type == "GPU" }

/-- Modelled from the spec: `LocalTypeFromGlobalType` (layout_parsing, not
under src/) — the external layout system global-to-local type mapping. Per the
spec data model it reshapes (shards) the tensor shape according to the layout
and keeps the element type; the claims here depend only on the element type
being preserved, so the shape is carried through unchanged. -/
def LocalTypeFromGlobalType (layout : Layout) (t : TensorTy) : Res TensorTy :=
  .ok { shape := t.shape, elem := t.elem }

/-- The body of one receive branch subprogram: the `tf._HostRecv` bound to the
device pair of this branch, and the layout attribute set on it. -/
structure RecvBranchBody where
  recv : HostRecvOp
  layoutAttr : String
deriving DecidableEq, Repr

/-- The value to which the uses of the abstract DTensorRecv result are
redirected: the `tf.Case` result itself, or the result of the narrowing cast
inserted after it. -/
inductive RedirectTarget where
  | caseResult
  | castResult
deriving DecidableEq, Repr

/-- The branch-body builder lambda of LowerOneToOneDTensorRecvToTFHostRecv
(lines 446-453): build the `tf._HostRecv` declaring the (possibly widened)
local output type, bound to this device pair, carrying the receive layout
attribute. -/
def recvBranchFn (recv_layout : Layout) (dtensor_recv : DTensorRecv)
    (local_output_type : TensorTy) : String × String → RecvBranchBody :=
  fun pair =>
    { recv := { outTy := local_output_type, tensor_name := dtensor_recv.key,
                send_device := pair.1, send_device_incarnation := 0,
                recv_device := pair.2 },
      layoutAttr := recv_layout.str }

/-- Result of LowerOneToOneDTensorRecvToTFHostRecv: the generated branch
subprograms, the module symbol table after their insertion, the emitted
`tf.Case` construct, the optional narrowing cast applied to the Case result,
the redirect target of the abstract op result uses, and whether the abstract
op was erased. -/
structure OneToOneRecvRes where
  branches : List (BranchGen RecvBranchBody)
  symbols : List String
  case_branch_index : OrdinalVal
  case_branch_table : List String
  case_output_types : List TensorTy
  case_is_stateless : Bool
  cast_after_case : Option TensorTy
  redirect : RedirectTarget
  erased : Bool
deriving DecidableEq, Repr

/-- LowerOneToOneDTensorRecvToTFHostRecv (lines 411-474). Branch receives
declare the widened 64-bit type when the element type is a 32-bit integer; a
single narrowing cast to the local receive type is inserted after the Case op
and the abstract op result uses are redirected to it before the erasure. -/
def LowerOneToOneDTensorRecvToTFHostRecv (send_mesh : Mesh)
    (recv_layout : Layout) (dtensor_recv : DTensorRecv) (ctx : OpCtx)
    (s : MState) (module_symbols : List String) : Res OneToOneRecvRes :=
  let recv_mesh := recv_layout.mesh
  let device_pairs := send_mesh.local_devices.zip recv_mesh.local_devices
  match ctx.parentCluster? with
  | none => .crash
  | some cid => do
    let mesh? ← ExtractDeviceMeshFromOp s cid
    match mesh? with
    | none => Res.crash
    | some mesh => do
      let device_ordinal ← GetDeviceOrdinal mesh ctx.clusterFunc? false
      let recv_type := dtensor_recv.type
      let i32_copy := recv_type.elem == ElemTy.i32
      let local_recv_type ← LocalTypeFromGlobalType dtensor_recv.layout recv_type
      let local_output_type : TensorTy :=
        if i32_copy then ⟨local_recv_type.shape, ElemTy.i64⟩
        else local_recv_type
      let gen := GenerateBranches dtensor_recv.opName dtensor_recv.opHash
        "_receive_" (recvBranchFn recv_layout dtensor_recv local_output_type)
        module_symbols 0 device_pairs
      pure { branches := gen.1,
             symbols := gen.2,
             case_branch_index := device_ordinal,
             case_branch_table := gen.1.map (fun b => b.name),
             case_output_types := [local_output_type],
             case_is_stateless := false,
             cast_after_case :=
               if i32_copy then some local_recv_type else none,
             redirect :=
               if i32_copy then RedirectTarget.castResult
               else RedirectTarget.caseResult,
             erased := true }

/-! Helper lemmas about the `Res` monad and list indexing. -/

@[simp] theorem bind_def {α β : Type} (r : Res α) (f : α → Res β) :
    (r >>= f) = Res.bind r f := rfl

@[simp] theorem pure_def {α : Type} (a : α) : (pure a : Res α) = Res.ok a := rfl

theorem Res.ok_of_bind {α β : Type} {r : Res α} {f : α → Res β} {b : β}
    (h : Res.bind r f = .ok b) : ∃ a, r = .ok a ∧ f a = .ok b := by
  cases r with
  | ok a => exact ⟨a, rfl, h⟩
  | fail e => exact absurd h (by simp [Res.bind])
  | crash => exact absurd h (by simp [Res.bind])

theorem idx_ok {α : Type} {l : List α} {i : Nat} {a : α}
    (h : l.get? i = some a) : idx l i = .ok a := by
  unfold idx
  rw [h]

/-- `List.indexOf` unfolded over cons, stated for the builtin `BEq Nat`. -/
theorem indexOf_cons_nat (a b : Nat) (l : List Nat) :
    List.indexOf a (b :: l) = if b == a then 0 else List.indexOf a l + 1 := by
  simp [List.indexOf, List.findIdx_cons, Bool.cond_eq_ite]

/-- The table-filling loop of GetDeviceOrdinal: when every local device id is
within the table bounds the loop succeeds, preserves the table length, leaves
slots of absent ids untouched, and (for duplicate-free ids) writes each id its
0-based position offset by the starting ordinal. -/
theorem fillTable_spec (ids : List Nat) :
    ∀ (i : Nat) (t : List Nat), (∀ id ∈ ids, id < t.length) →
      ∃ t', fillTable ids i t = .ok t' ∧ t'.length = t.length ∧
        (∀ d, d ∉ ids → t'.get? d = t.get? d) ∧
        (ids.Nodup → ∀ d ∈ ids, t'.get? d = some (i + ids.indexOf d)) := by
  induction ids with
  | nil =>
    intro i t hb
    exact ⟨t, rfl, rfl, fun d _ => rfl,
      fun _ d hd => absurd hd (List.not_mem_nil d)⟩
  | cons a rest ih =>
    intro i t hb
    have ha : a < t.length := hb a (List.mem_cons_self a rest)
    have hb' : ∀ id ∈ rest, id < (t.set a i).length := by
      intro id hid
      rw [List.length_set]
      exact hb id (List.mem_cons_of_mem a hid)
    obtain ⟨t', hfill, hlen, huntouched, hvals⟩ := ih (i + 1) (t.set a i) hb'
    refine ⟨t', ?_, ?_, ?_, ?_⟩
    · simp [fillTable, ha, hfill]
    · rw [hlen, List.length_set]
    · intro d hd
      have hda : a ≠ d := fun h => hd (h ▸ List.mem_cons_self a rest)
      have hdr : d ∉ rest := fun h => hd (List.mem_cons_of_mem a h)
      rw [huntouched d hdr, List.get?_set_ne _ _ hda]
    · intro hnd d hd
      rcases List.mem_cons.mp hd with rfl | hdr
      · have hanr : d ∉ rest := (List.nodup_cons.mp hnd).1
        rw [huntouched d hanr, List.get?_set_eq_of_lt _ ha,
          indexOf_cons_nat]
        simp
      · have hda : a ≠ d := by
          intro h
          exact (List.nodup_cons.mp hnd).1 (h ▸ hdr)
        rw [hvals (List.nodup_cons.mp hnd).2 d hdr, indexOf_cons_nat]
        have : (a == d) = false := by simpa using hda
        rw [this]
        simp only [if_neg Bool.false_ne_true]
        congr 1
        omega

/-- C1: For every mesh whose local-device-id list is consistent with its total
device count and every available device-id accessor, GetDeviceOrdinal returns
a scalar integer value equal to the 0-based position of the currently
executing device id within the mesh local-device list (computed by indexing a
zero-initialized table of size equal to the mesh total device count, in which
each local device id is mapped to its ordinal), widened to a 64-bit integer
exactly when `return_int64_type` is requested; it fails with an
invalid-argument condition when the device-id accessor is unavailable. -/
theorem getDeviceOrdinal_ordinal_spec (mesh : Mesh) (d : Nat) (f : FuncOp)
    (b : Bool)
    (hnd : mesh.local_device_ids.Nodup)
    (hbound : ∀ id ∈ mesh.local_device_ids, id < mesh.num_devices)
    (hmem : d ∈ mesh.local_device_ids) :
    (f.deviceId? = some d →
      GetDeviceOrdinal mesh (some f) b =
        .ok ⟨mesh.local_device_ids.indexOf d, if b then 64 else 32⟩) ∧
    (f.deviceId? = none →
      GetDeviceOrdinal mesh (some f) b =
        .fail (.invalidArgument "device id accessor unavailable")) := by
  have hbound' : ∀ id ∈ mesh.local_device_ids,
      id < (List.replicate mesh.num_devices (0 : Nat)).length := by
    simpa using hbound
  obtain ⟨t', hfill, hlen, _, hvals⟩ :=
    fillTable_spec mesh.local_device_ids 0 _ hbound'
  have hget : t'.get? d = some (mesh.local_device_ids.indexOf d) := by
    simpa using hvals hnd d hmem
  constructor
  · intro hdev
    simp only [GetDeviceOrdinal, bind_def, pure_def, hfill, Res.bind,
      DeviceId, hdev, idx, hget]
    cases b <;> rfl
  · intro hdev
    simp only [GetDeviceOrdinal, bind_def, pure_def, hfill, Res.bind,
      DeviceId, hdev]

/-- Witness for C1 at a concrete mesh of 4 devices with local ids [2, 3]. -/
theorem getDeviceOrdinal_ordinal_spec_witness :
    GetDeviceOrdinal ⟨4, [2, 3], ["a", "b"], "TPU"⟩ (some ⟨some 3⟩) true =
      .ok ⟨List.indexOf 3 [2, 3], if true then 64 else 32⟩ :=
  (getDeviceOrdinal_ordinal_spec ⟨4, [2, 3], ["a", "b"], "TPU"⟩ 3 ⟨some 3⟩ true
    (by decide) (by decide) (by decide)).1 rfl

/-! Inversion helpers: what a successful run of each single-target lowering
implies about its result record. -/

theorem sendToTF_ok_erased {l : Layout} {v : Nat} {ds : DTensorSend}
    {r : SendToTFRes} (h : LowerDTensorSendToTFOp l v ds = .ok r) :
    r.erased = true := by
  simp only [LowerDTensorSendToTFOp, bind_def, pure_def] at h
  obtain ⟨sd, hsd, h⟩ := Res.ok_of_bind h
  obtain ⟨rd, hrd, h⟩ := Res.ok_of_bind h
  injection h with h
  subst h
  rfl

theorem sendToXla_ok_erased {l : Layout} {v : Nat} {ds : DTensorSend}
    {ctx : OpCtx} {s : MState} {z : Bool} {r : SendToXlaRes}
    (h : LowerDTensorSendToXlaOp l v ds ctx s z = .ok r) :
    r.erased = true := by
  simp only [LowerDTensorSendToXlaOp, bind_def, pure_def] at h
  by_cases hx : (!l.mesh.is_tpu_mesh) = true
  · rw [if_pos hx] at h
    obtain ⟨pk, hpk, h⟩ := Res.ok_of_bind h
    by_cases hz : z = true
    · rw [if_pos hz] at h
      obtain ⟨ord, hord, h⟩ := Res.ok_of_bind h
      injection h with h
      subst h
      rfl
    · rw [if_neg hz] at h
      cases hc : ctx.parentCluster? with
      | none =>
        rw [hc] at h
        exact absurd h (by simp [Res.bind])
      | some cid =>
        rw [hc] at h
        cases hf : ctx.clusterFunc? with
        | none =>
          rw [hf] at h
          exact absurd h (by simp [Res.bind])
        | some f =>
          rw [hf] at h
          obtain ⟨ord, hord, h⟩ := Res.ok_of_bind h
          injection h with h
          subst h
          rfl
  · rw [if_neg hx] at h
    injection h with h
    subst h
    rfl

theorem fanOutSend_ok_erased {l : Layout} {v : Nat} {ds : DTensorSend}
    {r : FanOutSendRes} (h : LowerDTensorSendFromCPUToTFOp l v ds = .ok r) :
    r.erased = true := by
  unfold LowerDTensorSendFromCPUToTFOp at h
  cases hrec : ds.target_layout.mesh.local_devices with
  | nil => rw [hrec] at h; cases h
  | cons rd0 rds =>
    rw [hrec] at h
    simp only [bind_def, pure_def] at h
    obtain ⟨sd, hsd, h⟩ := Res.ok_of_bind h
    injection h with h
    subst h
    rfl

theorem fanOutRecv_ok_spec {m : Mesh} {dr : DTensorRecv} {ctx : OpCtx}
    {r : FanOutRecvRes} (h : LowerDTensorRecvFromCPUToTFOp m dr ctx = .ok r) :
    r.erased = true ∧ r.redirect = some (r.ops.length - 1) := by
  unfold LowerDTensorRecvFromCPUToTFOp at h
  cases hc : ctx.parentCluster? with
  | none => rw [hc] at h; cases h
  | some cid =>
    rw [hc] at h
    cases hrec : dr.layout.mesh.local_devices with
    | nil => rw [hrec] at h; cases h
    | cons rd0 rds =>
      rw [hrec] at h
      simp only [bind_def, pure_def] at h
      obtain ⟨sd, hsd, h⟩ := Res.ok_of_bind h
      injection h with h
      subst h
      simp

theorem recvToTF_ok_not_erased {m : Mesh} {dr : DTensorRecv} {ty : TensorTy}
    {ctx : OpCtx} {r : RecvToTFRes}
    (h : LowerDTensorRecvToTFOp m dr ty ctx = .ok r) :
    r.erased = false ∧ r.redirected = false := by
  unfold LowerDTensorRecvToTFOp at h
  cases hc : ctx.parentCluster? with
  | none => rw [hc] at h; cases h
  | some cid =>
    rw [hc] at h
    simp only [bind_def, pure_def] at h
    obtain ⟨sd, hsd, h⟩ := Res.ok_of_bind h
    obtain ⟨rd, hrd, h⟩ := Res.ok_of_bind h
    injection h with h
    subst h
    exact ⟨rfl, rfl⟩

theorem recvToXla_ok_not_erased {dr : DTensorRecv} {ty : TensorTy}
    {ctx : OpCtx} {s : MState} {r : RecvToXlaRes}
    (h : LowerDTensorRecvToXlaOp dr ty ctx s = .ok r) :
    r.erased = false ∧ r.redirected = false := by
  unfold LowerDTensorRecvToXlaOp at h
  by_cases hx : dr.layout.mesh.is_cpu_mesh = true
  · rw [if_pos hx] at h
    cases hc : ctx.parentCluster? with
    | none => rw [hc] at h; cases h
    | some cid =>
      rw [hc] at h
      simp only [bind_def, pure_def] at h
      obtain ⟨mesh?, hm, h⟩ := Res.ok_of_bind h
      cases mesh? with
      | none => cases h
      | some mesh =>
        obtain ⟨ord, hord, h⟩ := Res.ok_of_bind h
        obtain ⟨pk, hpk, h⟩ := Res.ok_of_bind h
        injection h with h
        subst h
        exact ⟨rfl, rfl⟩
  · rw [if_neg hx] at h
    injection h with h
    subst h
    exact ⟨rfl, rfl⟩

/-- C2: For every host-to-host single-target lowering of a matched Send/Recv
pair, the emitted send names the first local device of the source mesh as its
sending device and the first local device of the destination mesh as its
receiving device, and the transfer key carried by both the emitted send and
the emitted receive equals the abstract op key string. -/
theorem hostToHost_first_devices_spec (send_input_layout : Layout)
    (send_input : Nat) (dtensor_send : DTensorSend) (send_mesh : Mesh)
    (dtensor_recv : DTensorRecv) (output_type : TensorTy) (fc : Option FuncOp)
    (cid : Nat) (sd rd : String)
    (hsrc : send_input_layout.mesh = send_mesh)
    (hdst : dtensor_send.target_layout = dtensor_recv.layout)
    (hkey : dtensor_send.key = dtensor_recv.key)
    (hs : send_mesh.local_devices.get? 0 = some sd)
    (hr : dtensor_recv.layout.mesh.local_devices.get? 0 = some rd) :
    LowerDTensorSendToTFOp send_input_layout send_input dtensor_send =
      .ok { op := { input := send_input, tensor_name := dtensor_send.key,
                    send_device := sd, send_device_incarnation := 0,
                    recv_device := rd, client_terminated := false },
            erased := true } ∧
    LowerDTensorRecvToTFOp send_mesh dtensor_recv output_type ⟨some cid, fc⟩ =
      .ok { op := { outTy := output_type, tensor_name := dtensor_send.key,
                    send_device := sd, send_device_incarnation := 0,
                    recv_device := rd },
            erased := false, redirected := false } := by
  have h1 : idx send_input_layout.mesh.local_devices 0 = .ok sd := by
    rw [hsrc]; exact idx_ok hs
  have h2 : idx dtensor_send.target_layout.mesh.local_devices 0 = .ok rd := by
    rw [hdst]; exact idx_ok hr
  have h3 : idx send_mesh.local_devices 0 = .ok sd := idx_ok hs
  have h4 : idx dtensor_recv.layout.mesh.local_devices 0 = .ok rd := idx_ok hr
  constructor
  · simp only [LowerDTensorSendToTFOp, bind_def, pure_def, h1, h2, Res.bind,
      hkey]
  · unfold LowerDTensorRecvToTFOp
    simp only [bind_def, pure_def, h3, h4, Res.bind, hkey]

/-- Witness for C2 at a concrete matched pair over singleton host meshes. -/
theorem hostToHost_first_devices_spec_witness :
    LowerDTensorSendToTFOp ⟨⟨1, [0], ["/cpu:s"], "CPU"⟩, "ls"⟩ 7
      ⟨"send", 1, "t1", 7, ⟨[], ElemTy.f32⟩, ⟨⟨1, [0], ["/cpu:r"], "CPU"⟩, "lr"⟩⟩ =
      .ok { op := { input := 7, tensor_name := "t1", send_device := "/cpu:s",
                    send_device_incarnation := 0, recv_device := "/cpu:r",
                    client_terminated := false },
            erased := true } ∧
    LowerDTensorRecvToTFOp ⟨1, [0], ["/cpu:s"], "CPU"⟩
      ⟨"recv", 2, "t1", ⟨⟨1, [0], ["/cpu:r"], "CPU"⟩, "lr"⟩, ⟨[], ElemTy.f32⟩⟩
      ⟨[], ElemTy.f32⟩ ⟨some 0, none⟩ =
      .ok { op := { outTy := ⟨[], ElemTy.f32⟩, tensor_name := "t1",
                    send_device := "/cpu:s", send_device_incarnation := 0,
                    recv_device := "/cpu:r" },
            erased := false, redirected := false } :=
  hostToHost_first_devices_spec ⟨⟨1, [0], ["/cpu:s"], "CPU"⟩, "ls"⟩ 7
    ⟨"send", 1, "t1", 7, ⟨[], ElemTy.f32⟩, ⟨⟨1, [0], ["/cpu:r"], "CPU"⟩, "lr"⟩⟩
    ⟨1, [0], ["/cpu:s"], "CPU"⟩
    ⟨"recv", 2, "t1", ⟨⟨1, [0], ["/cpu:r"], "CPU"⟩, "lr"⟩, ⟨[], ElemTy.f32⟩⟩
    ⟨[], ElemTy.f32⟩ none 0 "/cpu:s" "/cpu:r" rfl rfl rfl rfl rfl

/-- C3 counterexample: the host-to-host receive lowering
(LowerDTensorRecvToTFOp, lines 290-310) returns successfully at this concrete
input yet neither erases the abstract DTensorRecv op nor redirects any of its
uses, contradicting the claim that every single-target lowering variant erases
the abstract op and redirects its uses before returning. -/
theorem recvToTF_leaves_abstract_op :
    LowerDTensorRecvToTFOp ⟨1, [0], ["/cpu:s"], "CPU"⟩
      ⟨"recv", 2, "t1", ⟨⟨1, [0], ["/cpu:r"], "CPU"⟩, "lr"⟩, ⟨[], ElemTy.f32⟩⟩
      ⟨[], ElemTy.f32⟩ ⟨some 0, none⟩ =
      .ok { op := { outTy := ⟨[], ElemTy.f32⟩, tensor_name := "t1",
                    send_device := "/cpu:s", send_device_incarnation := 0,
                    recv_device := "/cpu:r" },
            erased := false, redirected := false } := by
  rfl

/-- C3 (amended): among the single-target lowering variants, the host-to-host
send, the Xla send, the fan-out send and the fan-out receive erase the
abstract op before returning (the fan-out receive first redirects every use of
the abstract op result, to the last-created receive); but the host-to-host
receive and the Xla receive leave the abstract op in place and redirect no
uses — erasure there is left to the caller. -/
theorem lowering_erasure_spec
    (l1 : Layout) (v1 : Nat) (ds1 : DTensorSend) (r1 : SendToTFRes)
    (h1 : LowerDTensorSendToTFOp l1 v1 ds1 = .ok r1)
    (l2 : Layout) (v2 : Nat) (ds2 : DTensorSend) (ctx2 : OpCtx) (s2 : MState)
    (z2 : Bool) (r2 : SendToXlaRes)
    (h2 : LowerDTensorSendToXlaOp l2 v2 ds2 ctx2 s2 z2 = .ok r2)
    (l3 : Layout) (v3 : Nat) (ds3 : DTensorSend) (r3 : FanOutSendRes)
    (h3 : LowerDTensorSendFromCPUToTFOp l3 v3 ds3 = .ok r3)
    (m4 : Mesh) (dr4 : DTensorRecv) (ctx4 : OpCtx) (r4 : FanOutRecvRes)
    (h4 : LowerDTensorRecvFromCPUToTFOp m4 dr4 ctx4 = .ok r4)
    (m5 : Mesh) (dr5 : DTensorRecv) (ty5 : TensorTy) (ctx5 : OpCtx)
    (r5 : RecvToTFRes)
    (h5 : LowerDTensorRecvToTFOp m5 dr5 ty5 ctx5 = .ok r5)
    (dr6 : DTensorRecv) (ty6 : TensorTy) (ctx6 : OpCtx) (s6 : MState)
    (r6 : RecvToXlaRes)
    (h6 : LowerDTensorRecvToXlaOp dr6 ty6 ctx6 s6 = .ok r6) :
    r1.erased = true ∧ r2.erased = true ∧ r3.erased = true ∧
    (r4.erased = true ∧ r4.redirect = some (r4.ops.length - 1)) ∧
    (r5.erased = false ∧ r5.redirected = false) ∧
    (r6.erased = false ∧ r6.redirected = false) :=
  ⟨sendToTF_ok_erased h1, sendToXla_ok_erased h2, fanOutSend_ok_erased h3,
   fanOutRecv_ok_spec h4, recvToTF_ok_not_erased h5, recvToXla_ok_not_erased h6⟩

/-- Witness for the amended C3 at concrete runs of all six variants. -/
theorem lowering_erasure_spec_witness :
    ({ op := { input := 7, tensor_name := "t1", send_device := "/cpu:s",
               send_device_incarnation := 0, recv_device := "/cpu:r",
               client_terminated := false },
       erased := true } : SendToTFRes).erased = true ∧
    ({ op := XlaSendOp.toHost 7 "t1", erased := true,
       state := ⟨[], 0⟩ } : SendToXlaRes).erased = true ∧
    ({ ops := [{ input := 7, tensor_name := "t1", send_device := "/cpu:s",
                 send_device_incarnation := 0, recv_device := "/cpu:r",
                 client_terminated := false }],
       erased := true } : FanOutSendRes).erased = true ∧
    (({ ops := [{ outTy := ⟨[], ElemTy.f32⟩, tensor_name := "t1",
                  send_device := "/cpu:s", send_device_incarnation := 0,
                  recv_device := "/cpu:r" }],
        redirect := some 0, erased := true } : FanOutRecvRes).erased = true ∧
      ({ ops := [{ outTy := ⟨[], ElemTy.f32⟩, tensor_name := "t1",
                   send_device := "/cpu:s", send_device_incarnation := 0,
                   recv_device := "/cpu:r" }],
         redirect := some 0, erased := true } : FanOutRecvRes).redirect =
        some (1 - 1)) ∧
    (({ op := { outTy := ⟨[], ElemTy.f32⟩, tensor_name := "t1",
                send_device := "/cpu:s", send_device_incarnation := 0,
                recv_device := "/cpu:r" },
        erased := false, redirected := false } : RecvToTFRes).erased = false ∧
      ({ op := { outTy := ⟨[], ElemTy.f32⟩, tensor_name := "t1",
                 send_device := "/cpu:s", send_device_incarnation := 0,
                 recv_device := "/cpu:r" },
         erased := false, redirected := false } : RecvToTFRes).redirected =
        false) ∧
    (({ op := XlaRecvOp.fromHost ⟨[], ElemTy.f32⟩ [] "t1", erased := false,
        redirected := false, state := ⟨[], 0⟩ } : RecvToXlaRes).erased =
        false ∧
      ({ op := XlaRecvOp.fromHost ⟨[], ElemTy.f32⟩ [] "t1", erased := false,
         redirected := false, state := ⟨[], 0⟩ } : RecvToXlaRes).redirected =
        false) :=
  lowering_erasure_spec
    ⟨⟨1, [0], ["/cpu:s"], "CPU"⟩, "ls"⟩ 7
    ⟨"send", 1, "t1", 7, ⟨[], ElemTy.f32⟩, ⟨⟨1, [0], ["/cpu:r"], "CPU"⟩, "lr"⟩⟩
    _ rfl
    ⟨⟨1, [0], ["/tpu:0"], "TPU"⟩, "ls"⟩ 7
    ⟨"send", 1, "t1", 7, ⟨[], ElemTy.f32⟩, ⟨⟨1, [0], ["/cpu:r"], "CPU"⟩, "lr"⟩⟩
    ⟨none, none⟩ ⟨[], 0⟩ false _ rfl
    ⟨⟨1, [0], ["/cpu:s"], "CPU"⟩, "ls"⟩ 7
    ⟨"send", 1, "t1", 7, ⟨[], ElemTy.f32⟩, ⟨⟨1, [0], ["/cpu:r"], "CPU"⟩, "lr"⟩⟩
    _ rfl
    ⟨1, [0], ["/cpu:s"], "CPU"⟩
    ⟨"recv", 2, "t1", ⟨⟨1, [0], ["/cpu:r"], "CPU"⟩, "lr"⟩, ⟨[], ElemTy.f32⟩⟩
    ⟨some 0, none⟩ _ rfl
    ⟨1, [0], ["/cpu:s"], "CPU"⟩
    ⟨"recv", 2, "t1", ⟨⟨1, [0], ["/cpu:r"], "CPU"⟩, "lr"⟩, ⟨[], ElemTy.f32⟩⟩
    ⟨[], ElemTy.f32⟩ ⟨some 0, none⟩ _ rfl
    ⟨"recv", 2, "t1", ⟨⟨1, [0], ["/tpu:r"], "TPU"⟩, "lr"⟩, ⟨[], ElemTy.f32⟩⟩
    ⟨[], ElemTy.f32⟩ ⟨some 0, none⟩ ⟨[], 0⟩ _ rfl

/-! Helper lemmas for the compilation-key provider. -/

theorem getLast?_eq_none_iff {α : Type} {l : List α} :
    l.getLast? = none ↔ l = [] := by
  cases l with
  | nil => simp
  | cons a as => simp [List.getLast?_cons]

theorem find?_map_replace (l : List Cluster) (cid : Nat) (c c' : Cluster)
    (hfind : l.find? (fun d => d.cid == cid) = some c) (hcid : c'.cid = c.cid) :
    (l.map (fun d => if d.cid == c.cid then c' else d)).find?
      (fun d => d.cid == cid) = some c' := by
  induction l with
  | nil => cases hfind
  | cons a l ih =>
    have hc : c.cid = cid := by
      have := List.find?_some hfind
      simpa using this
    by_cases ha : (a.cid == cid) = true
    · have hca : c = a := by
        simp only [List.find?_cons, ha, cond_true] at hfind
        exact (Option.some.inj hfind).symm
      have haa : (a.cid == c.cid) = true := by
        rw [hca]
        simp
      have hpc' : (c'.cid == cid) = true := by
        simp [hcid, hc]
      simp only [List.map_cons, if_pos haa, List.find?_cons, hpc', cond_true]
    · have ha' : (a.cid == cid) = false := by
        simpa using ha
      simp only [List.find?_cons, ha', cond_false] at hfind
      have haa : (a.cid == c.cid) = false := by
        rw [hc]
        exact ha'
      have hnaa : ¬((a.cid == c.cid) = true) := by
        simp [haa]
      simp only [List.map_cons, if_neg hnaa, List.find?_cons, ha', cond_false]
      exact ih hfind

theorem findCluster_cid {s : MState} {cid : Nat} {c : Cluster}
    (h : findCluster s cid = some c) : c.cid = cid := by
  have h' : s.clusters.find? (fun d => d.cid == cid) = some c := h
  have := List.find?_some h'
  simpa using this

theorem getOrCreateAt_none {s : MState} {cid : Nat}
    (hf : findCluster s cid = none) :
    getOrCreateCompilationKeyAt s cid = .crash := by
  unfold getOrCreateCompilationKeyAt
  rw [hf]

theorem getOrCreateAt_found_some {s : MState} {cid : Nat} {c : Cluster}
    {p : KeyOp} (hf : findCluster s cid = some c)
    (hp : (clusterPlaceholders c).getLast? = some p) :
    getOrCreateCompilationKeyAt s cid = .ok (⟨c.cid, p.id⟩, s) := by
  unfold getOrCreateCompilationKeyAt
  rw [hf]
  show ((match (clusterPlaceholders c).getLast? with
    | some p => Res.ok (⟨c.cid, p.id⟩, s)
    | none =>
      Res.ok (⟨c.cid, s.nextId⟩,
        { clusters := s.clusters.map (fun d =>
            if d.cid == c.cid then
              { c with body := ⟨s.nextId, true, ⟨[3], ElemTy.str⟩⟩ :: c.body }
            else d),
          nextId := s.nextId + 1 })) : Res (KeyValue × MState)) = _
  rw [hp]

theorem getOrCreateAt_found_none {s : MState} {cid : Nat} {c : Cluster}
    (hf : findCluster s cid = some c)
    (hp : (clusterPlaceholders c).getLast? = none) :
    getOrCreateCompilationKeyAt s cid =
      .ok (⟨c.cid, s.nextId⟩,
        { clusters := s.clusters.map (fun d =>
            if d.cid == c.cid then
              { c with body := ⟨s.nextId, true, ⟨[3], ElemTy.str⟩⟩ :: c.body }
            else d),
          nextId := s.nextId + 1 }) := by
  unfold getOrCreateCompilationKeyAt
  rw [hf]
  show ((match (clusterPlaceholders c).getLast? with
    | some p => Res.ok (⟨c.cid, p.id⟩, s)
    | none =>
      Res.ok (⟨c.cid, s.nextId⟩,
        { clusters := s.clusters.map (fun d =>
            if d.cid == c.cid then
              { c with body := ⟨s.nextId, true, ⟨[3], ElemTy.str⟩⟩ :: c.body }
            else d),
          nextId := s.nextId + 1 })) : Res (KeyValue × MState)) = _
  rw [hp]

theorem getOrCreate_cluster_eq {s : MState} {cid : Nat} {k : KeyValue}
    {s' : MState} (h : GetOrCreateCompilationKey s (some cid) = .ok (k, s')) :
    k.cluster = cid := by
  replace h : getOrCreateCompilationKeyAt s cid = .ok (k, s') := h
  cases hf : findCluster s cid with
  | none => rw [getOrCreateAt_none hf] at h; cases h
  | some c =>
    have hc : c.cid = cid := findCluster_cid hf
    cases hp : (clusterPlaceholders c).getLast? with
    | some p =>
      rw [getOrCreateAt_found_some hf hp] at h
      injection h with h
      injection h with hk hs
      rw [← hk]
      exact hc
    | none =>
      rw [getOrCreateAt_found_none hf hp] at h
      injection h with h
      injection h with hk hs
      rw [← hk]
      exact hc

/-- C5: The compilation-key provider is idempotent per cluster: a successful
call either finds an existing placeholder and leaves the module state
untouched, or (when the cluster body holds no placeholder yet) creates exactly
one 3-element string-tensor placeholder at the start of the cluster body; a
second call from an op of the same cluster returns the same handle and the
same state; calls from ops of two different clusters return distinct
handles. -/
theorem getOrCreateCompilationKey_spec :
    (∀ (s : MState) (cid : Nat) (c : Cluster) (k : KeyValue) (s' : MState),
        findCluster s cid = some c →
        GetOrCreateCompilationKey s (some cid) = .ok (k, s') →
        ((clusterPlaceholders c ≠ [] ∧ s' = s) ∨
          (clusterPlaceholders c = [] ∧
            findCluster s' cid = some
              { c with
                body := ⟨s.nextId, true, ⟨[3], ElemTy.str⟩⟩ :: c.body }))) ∧
    (∀ (s : MState) (cid : Nat) (k : KeyValue) (s' : MState),
        GetOrCreateCompilationKey s (some cid) = .ok (k, s') →
        GetOrCreateCompilationKey s' (some cid) = .ok (k, s')) ∧
    (∀ (s t : MState) (c1 c2 : Nat) (k1 k2 : KeyValue) (s1 t1 : MState),
        GetOrCreateCompilationKey s (some c1) = .ok (k1, s1) →
        GetOrCreateCompilationKey t (some c2) = .ok (k2, t1) →
        c1 ≠ c2 → k1 ≠ k2) := by
  refine ⟨?_, ?_, ?_⟩
  · intro s cid c k s' hfind h
    replace h : getOrCreateCompilationKeyAt s cid = .ok (k, s') := h
    cases hp : (clusterPlaceholders c).getLast? with
    | some p =>
      rw [getOrCreateAt_found_some hfind hp] at h
      injection h with h
      injection h with hk hs
      left
      constructor
      · intro h0
        rw [h0] at hp
        cases hp
      · exact hs.symm
    | none =>
      rw [getOrCreateAt_found_none hfind hp] at h
      injection h with h
      injection h with hk hs
      right
      refine ⟨getLast?_eq_none_iff.mp hp, ?_⟩
      rw [← hs]
      exact find?_map_replace s.clusters cid c _ hfind rfl
  · intro s cid k s' h
    replace h : getOrCreateCompilationKeyAt s cid = .ok (k, s') := h
    show getOrCreateCompilationKeyAt s' cid = .ok (k, s')
    cases hf : findCluster s cid with
    | none => rw [getOrCreateAt_none hf] at h; cases h
    | some c =>
      cases hp : (clusterPlaceholders c).getLast? with
      | some p =>
        rw [getOrCreateAt_found_some hf hp] at h
        injection h with h
        injection h with hk hs
        subst hs
        rw [getOrCreateAt_found_some hf hp, hk]
      | none =>
        rw [getOrCreateAt_found_none hf hp] at h
        injection h with h
        injection h with hk hs
        have hplc0 : c.body.filter (fun o => o.isPlaceholder) = [] :=
          getLast?_eq_none_iff.mp hp
        have hfind' : findCluster s' cid = some
            { c with body := ⟨s.nextId, true, ⟨[3], ElemTy.str⟩⟩ :: c.body } := by
          rw [← hs]
          exact find?_map_replace s.clusters cid c _ hf rfl
        have hplc' : (clusterPlaceholders
            { c with body := ⟨s.nextId, true, ⟨[3], ElemTy.str⟩⟩ :: c.body }).getLast? =
            some ⟨s.nextId, true, ⟨[3], ElemTy.str⟩⟩ := by
          show (List.filter (fun o => o.isPlaceholder)
            (⟨s.nextId, true, ⟨[3], ElemTy.str⟩⟩ :: c.body)).getLast? = _
          rw [List.filter_cons]
          simp [hplc0]
        rw [getOrCreateAt_found_some hfind' hplc']
        rw [← hk]
  · intro s t c1 c2 k1 k2 s1 t1 h1 h2 hne heq
    apply hne
    rw [← getOrCreate_cluster_eq h1, ← getOrCreate_cluster_eq h2, heq]

/-- Witness for C5: a module with two clusters; the second call on cluster 0
returns the handle created by the first call with the state unchanged, and the
handles of cluster 0 and cluster 1 differ. -/
theorem getOrCreateCompilationKey_spec_witness :
    GetOrCreateCompilationKey
      ⟨[⟨0, none, [⟨10, true, ⟨[3], ElemTy.str⟩⟩]⟩, ⟨1, none, []⟩], 11⟩
      (some 0) =
      .ok (⟨0, 10⟩,
        ⟨[⟨0, none, [⟨10, true, ⟨[3], ElemTy.str⟩⟩]⟩, ⟨1, none, []⟩], 11⟩) ∧
    (⟨0, 10⟩ : KeyValue) ≠ ⟨1, 11⟩ :=
  ⟨getOrCreateCompilationKey_spec.2.1
      ⟨[⟨0, none, []⟩, ⟨1, none, []⟩], 10⟩ 0 ⟨0, 10⟩
      ⟨[⟨0, none, [⟨10, true, ⟨[3], ElemTy.str⟩⟩]⟩, ⟨1, none, []⟩], 11⟩ rfl,
    getOrCreateCompilationKey_spec.2.2
      ⟨[⟨0, none, []⟩, ⟨1, none, []⟩], 10⟩
      ⟨[⟨0, none, [⟨10, true, ⟨[3], ElemTy.str⟩⟩]⟩, ⟨1, none, []⟩], 11⟩
      0 1 ⟨0, 10⟩ ⟨1, 11⟩ _ _ rfl rfl (by decide)⟩

/-- C9: In the fan-out lowering, the sending side emits exactly one
`tf._HostSend` per receiving local device, each carrying the same input tensor
value (the DTensorSend operand) and the same first sending device name but
differing receiving device names; the receiving side emits exactly one
`tf._HostRecv` per receiving local device, all declaring the same result type,
and the uses of the abstract DTensorRecv result are redirected to the
last-created receive. -/
theorem fanOut_sends_recvs_spec (send_input_layout : Layout)
    (send_input : Nat) (dtensor_send : DTensorSend) (send_mesh : Mesh)
    (dtensor_recv : DTensorRecv) (fc : Option FuncOp) (cid : Nat) (sd : String)
    (hmatch : dtensor_send.target_layout = dtensor_recv.layout)
    (hs : send_input_layout.mesh.local_devices.get? 0 = some sd)
    (hs' : send_mesh.local_devices.get? 0 = some sd)
    (hne : dtensor_recv.layout.mesh.local_devices ≠ [])
    (hnd : dtensor_recv.layout.mesh.local_devices.Nodup) :
    LowerDTensorSendFromCPUToTFOp send_input_layout send_input dtensor_send =
      .ok { ops := dtensor_recv.layout.mesh.local_devices.map (fun rd =>
              { input := dtensor_send.input,
                tensor_name := dtensor_send.key, send_device := sd,
                send_device_incarnation := 0, recv_device := rd,
                client_terminated := false }),
            erased := true } ∧
    LowerDTensorRecvFromCPUToTFOp send_mesh dtensor_recv ⟨some cid, fc⟩ =
      .ok { ops := dtensor_recv.layout.mesh.local_devices.map (fun rd =>
              { outTy := dtensor_recv.type, tensor_name := dtensor_recv.key,
                send_device := sd, send_device_incarnation := 0,
                recv_device := rd }),
            redirect :=
              some (dtensor_recv.layout.mesh.local_devices.length - 1),
            erased := true } ∧
    ((dtensor_recv.layout.mesh.local_devices.map (fun rd =>
        ({ input := dtensor_send.input, tensor_name := dtensor_send.key,
           send_device := sd, send_device_incarnation := 0,
           recv_device := rd,
           client_terminated := false } : HostSendOp Nat))).map
      (fun o => o.recv_device)).Nodup ∧
    (∀ o ∈ dtensor_recv.layout.mesh.local_devices.map (fun rd =>
        ({ outTy := dtensor_recv.type, tensor_name := dtensor_recv.key,
           send_device := sd, send_device_incarnation := 0,
           recv_device := rd } : HostRecvOp)),
      o.outTy = dtensor_recv.type) := by
  obtain ⟨rd0, rds, hrec⟩ : ∃ a l,
      dtensor_recv.layout.mesh.local_devices = a :: l := by
    cases h : dtensor_recv.layout.mesh.local_devices with
    | nil => exact absurd h hne
    | cons a l => exact ⟨a, l, rfl⟩
  refine ⟨?_, ?_, ?_, ?_⟩
  · unfold LowerDTensorSendFromCPUToTFOp
    rw [hmatch, hrec]
    simp only [bind_def, pure_def, idx_ok hs, Res.bind]
  · unfold LowerDTensorRecvFromCPUToTFOp
    rw [hrec]
    simp only [bind_def, pure_def, idx_ok hs', Res.bind]
  · have : (dtensor_recv.layout.mesh.local_devices.map (fun rd =>
        ({ input := dtensor_send.input, tensor_name := dtensor_send.key,
           send_device := sd, send_device_incarnation := 0,
           recv_device := rd,
           client_terminated := false } : HostSendOp Nat))).map
        (fun o => o.recv_device) = dtensor_recv.layout.mesh.local_devices := by
      rw [List.map_map]
      exact List.map_id dtensor_recv.layout.mesh.local_devices
    rw [this]
    exact hnd
  · intro o ho
    obtain ⟨rd, hrd, rfl⟩ := List.mem_map.mp ho
    rfl

/-- Witness for C9 at a concrete one-sender two-receivers configuration. -/
theorem fanOut_sends_recvs_spec_witness :
    LowerDTensorSendFromCPUToTFOp ⟨⟨1, [0], ["/cpu:0"], "CPU"⟩, "ls"⟩ 7
      ⟨"send", 1, "t2", 7, ⟨[2], ElemTy.f32⟩,
        ⟨⟨2, [0, 1], ["/tpu:0", "/tpu:1"], "TPU"⟩, "lr"⟩⟩ =
      .ok { ops := [
              { input := 7, tensor_name := "t2", send_device := "/cpu:0",
                send_device_incarnation := 0, recv_device := "/tpu:0",
                client_terminated := false },
              { input := 7, tensor_name := "t2", send_device := "/cpu:0",
                send_device_incarnation := 0, recv_device := "/tpu:1",
                client_terminated := false }],
            erased := true } ∧
    LowerDTensorRecvFromCPUToTFOp ⟨1, [0], ["/cpu:0"], "CPU"⟩
      ⟨"recv", 2, "t2", ⟨⟨2, [0, 1], ["/tpu:0", "/tpu:1"], "TPU"⟩, "lr"⟩,
        ⟨[2], ElemTy.f32⟩⟩ ⟨some 0, none⟩ =
      .ok { ops := [
              { outTy := ⟨[2], ElemTy.f32⟩, tensor_name := "t2",
                send_device := "/cpu:0", send_device_incarnation := 0,
                recv_device := "/tpu:0" },
              { outTy := ⟨[2], ElemTy.f32⟩, tensor_name := "t2",
                send_device := "/cpu:0", send_device_incarnation := 0,
                recv_device := "/tpu:1" }],
            redirect := some 1, erased := true } := by
  have h := fanOut_sends_recvs_spec ⟨⟨1, [0], ["/cpu:0"], "CPU"⟩, "ls"⟩ 7
    ⟨"send", 1, "t2", 7, ⟨[2], ElemTy.f32⟩,
      ⟨⟨2, [0, 1], ["/tpu:0", "/tpu:1"], "TPU"⟩, "lr"⟩⟩
    ⟨1, [0], ["/cpu:0"], "CPU"⟩
    ⟨"recv", 2, "t2", ⟨⟨2, [0, 1], ["/tpu:0", "/tpu:1"], "TPU"⟩, "lr"⟩,
      ⟨[2], ElemTy.f32⟩⟩
    none 0 "/cpu:0" rfl rfl rfl (by decide) (by decide)
  exact ⟨h.1, h.2.1⟩

/-! Injectivity of the decimal branch-name formatting. -/

theorem natDigitsAux_lt_ten :
    ∀ (fuel n : Nat), ∀ d ∈ natDigitsAux fuel n, d < 10 := by
  intro fuel
  induction fuel with
  | zero =>
    intro n d hd
    exact absurd hd (List.not_mem_nil d)
  | succ fuel ih =>
    intro n d hd
    cases n with
    | zero => exact absurd hd (List.not_mem_nil d)
    | succ m =>
      simp only [natDigitsAux] at hd
      rcases List.mem_cons.mp hd with rfl | hd'
      · exact Nat.mod_lt _ (by norm_num)
      · exact ih _ d hd'

theorem natDigitsAux_decode : ∀ (fuel n : Nat), n ≤ fuel →
    List.foldr (fun d acc => acc * 10 + d) 0 (natDigitsAux fuel n) = n := by
  intro fuel
  induction fuel with
  | zero =>
    intro n hn
    have h0 : n = 0 := Nat.le_zero.mp hn
    subst h0
    rfl
  | succ fuel ih =>
    intro n hn
    cases n with
    | zero => rfl
    | succ m =>
      have hlt : (m + 1) / 10 < m + 1 := Nat.div_lt_self (Nat.succ_pos m)
        (by norm_num)
      have hle : (m + 1) / 10 ≤ fuel := by omega
      simp only [natDigitsAux, List.foldr_cons]
      rw [ih ((m + 1) / 10) hle]
      omega

theorem digitChar_toNat : ∀ d, d < 10 → (digitChar d).toNat = 48 + d := by
  decide

theorem foldr_digitChar (l : List Nat) (h : ∀ d ∈ l, d < 10) :
    List.foldr (fun c acc => acc * 10 + (c.toNat - 48)) 0 (l.map digitChar) =
      List.foldr (fun d acc => acc * 10 + d) 0 l := by
  induction l with
  | nil => rfl
  | cons d ds ih =>
    simp only [List.map_cons, List.foldr_cons]
    rw [ih (fun x hx => h x (List.mem_cons_of_mem d hx)),
      digitChar_toNat d (h d (List.mem_cons_self d ds))]
    omega

theorem decode_natDecStr (n : Nat) : decodeDec (natDecStr n) = n := by
  by_cases h0 : n = 0
  · subst h0
    rfl
  · unfold natDecStr
    rw [if_neg h0]
    show (((natDigits n).map digitChar).reverse).foldl
      (fun acc c => acc * 10 + (c.toNat - 48)) 0 = n
    rw [List.foldl_reverse]
    have hfr : List.foldr (fun c acc => acc * 10 + (c.toNat - 48)) 0
        ((natDigits n).map digitChar) = n := by
      rw [foldr_digitChar (natDigits n)
        (fun d hd => natDigitsAux_lt_ten n n d hd)]
      exact natDigitsAux_decode n n le_rfl
    exact hfr

theorem natDecStr_inj : Function.Injective natDecStr := by
  intro m n h
  have hmn := congrArg decodeDec h
  rwa [decode_natDecStr, decode_natDecStr] at hmn

theorem string_data_append (s t : String) : (s ++ t).data = s.data ++ t.data :=
  rfl

theorem string_eq_of_data {s t : String} (h : s.data = t.data) : s = t := by
  cases s with
  | mk d1 =>
    cases t with
    | mk d2 =>
      have h' : d1 = d2 := h
      rw [h']

theorem branchFmt_inj (mid opName : String) (opHash : Nat) :
    Function.Injective (branchFmt mid opName opHash) := by
  intro i j h
  apply natDecStr_inj
  have hd := congrArg String.data h
  simp only [branchFmt, string_data_append] at hd
  exact string_eq_of_data (List.append_cancel_left hd)

theorem namesFrom_mem (mid opName : String) (opHash : Nat) :
    ∀ (n i : Nat) (x : String), x ∈ namesFrom mid opName opHash i n ↔
      ∃ k, k < n ∧ x = branchFmt mid opName opHash (i + k) := by
  intro n
  induction n with
  | zero =>
    intro i x
    simp [namesFrom]
  | succ n ih =>
    intro i x
    simp only [namesFrom, List.mem_cons, ih (i + 1)]
    constructor
    · rintro (rfl | ⟨k, hk, rfl⟩)
      · exact ⟨0, Nat.succ_pos n, by rw [Nat.add_zero]⟩
      · exact ⟨k + 1, by omega, by rw [show i + 1 + k = i + (k + 1) by omega]⟩
    · rintro ⟨k, hk, rfl⟩
      cases k with
      | zero => left; rw [Nat.add_zero]
      | succ k =>
        right
        exact ⟨k, by omega, by rw [show i + 1 + k = i + (k + 1) by omega]⟩

theorem namesFrom_nodup (mid opName : String) (opHash : Nat) :
    ∀ (n i : Nat), (namesFrom mid opName opHash i n).Nodup := by
  intro n
  induction n with
  | zero => intro i; exact List.nodup_nil
  | succ n ih =>
    intro i
    refine List.nodup_cons.mpr ⟨?_, ih (i + 1)⟩
    intro hmem
    obtain ⟨k, hk, heq⟩ := (namesFrom_mem mid opName opHash n (i + 1) _).mp hmem
    have := branchFmt_inj mid opName opHash heq
    omega

theorem namesFrom_length (mid opName : String) (opHash : Nat) :
    ∀ (n i : Nat), (namesFrom mid opName opHash i n).length = n := by
  intro n
  induction n with
  | zero => intro i; rfl
  | succ n ih =>
    intro i
    simp only [namesFrom, List.length_cons, ih (i + 1)]

/-! Structural lemmas about GenerateBranches. -/

theorem generateBranches_names {α β : Type} (opName : String) (opHash : Nat)
    (mid : String) (fn : α → β) :
    ∀ (values : List α) (symbols : List String) (i : Nat),
      (GenerateBranches opName opHash mid fn symbols i values).1.map
          (fun b => b.name) =
        namesFrom mid opName opHash i values.length := by
  intro values
  induction values with
  | nil => intro symbols i; rfl
  | cons v rest ih =>
    intro symbols i
    simp only [GenerateBranches, List.map_cons, List.length_cons, namesFrom]
    rw [ih _ (i + 1)]

theorem generateBranches_length {α β : Type} (opName : String) (opHash : Nat)
    (mid : String) (fn : α → β) :
    ∀ (values : List α) (symbols : List String) (i : Nat),
      (GenerateBranches opName opHash mid fn symbols i values).1.length =
        values.length := by
  intro values
  induction values with
  | nil => intro symbols i; rfl
  | cons v rest ih =>
    intro symbols i
    simp only [GenerateBranches, List.length_cons, ih _ (i + 1)]

theorem generateBranches_symbols {α β : Type} (opName : String) (opHash : Nat)
    (mid : String) (fn : α → β) :
    ∀ (values : List α) (symbols : List String) (i : Nat),
      (GenerateBranches opName opHash mid fn symbols i values).2 =
        symbols ++
          (GenerateBranches opName opHash mid fn symbols i values).1.map
            (fun b => b.name) := by
  intro values
  induction values with
  | nil =>
    intro symbols i
    simp [GenerateBranches]
  | cons v rest ih =>
    intro values i
    simp only [GenerateBranches, List.map_cons]
    rw [ih _ (i + 1)]
    rw [List.append_assoc]
    rfl

theorem generateBranches_bodies {α β : Type} (opName : String) (opHash : Nat)
    (mid : String) (fn : α → β) :
    ∀ (values : List α) (symbols : List String) (i : Nat),
      (GenerateBranches opName opHash mid fn symbols i values).1.map
          (fun b => b.body) = values.map fn := by
  intro values
  induction values with
  | nil => intro symbols i; rfl
  | cons v rest ih =>
    intro symbols i
    simp only [GenerateBranches, List.map_cons]
    rw [ih _ (i + 1)]

theorem generateBranches_private {α β : Type} (opName : String) (opHash : Nat)
    (mid : String) (fn : α → β) :
    ∀ (values : List α) (symbols : List String) (i : Nat),
      ∀ b ∈ (GenerateBranches opName opHash mid fn symbols i values).1,
        b.visibility_private = true := by
  intro values
  induction values with
  | nil =>
    intro symbols i b hb
    exact absurd hb (List.not_mem_nil b)
  | cons v rest ih =>
    intro symbols i b hb
    simp only [GenerateBranches, List.mem_cons] at hb
    rcases hb with rfl | hb
    · rfl
    · exact ih _ (i + 1) b hb

/-! Evaluation lemmas for the one-to-one branching lowerings with the
surrounding context resolved. -/

theorem oneToOneSend_eq (send_layout : Layout) (recv_mesh : Mesh)
    (dtensor_send : DTensorSend) (fc : Option FuncOp) (cid : Nat) (s : MState)
    (syms : List String) (mesh : Mesh) (ord : OrdinalVal)
    (hext : ExtractDeviceMeshFromOp s cid = .ok (some mesh))
    (hord : GetDeviceOrdinal mesh fc false = .ok ord) :
    LowerOneToOneDTensorSendToTFHostSend send_layout recv_mesh dtensor_send
      ⟨some cid, fc⟩ s syms =
      .ok { branches := (GenerateBranches dtensor_send.opName
              dtensor_send.opHash "_send_"
              (sendBranchFn send_layout dtensor_send
                (dtensor_send.inputType.elem == ElemTy.i32))
              syms 0
              (send_layout.mesh.local_devices.zip recv_mesh.local_devices)).1,
            symbols := (GenerateBranches dtensor_send.opName
              dtensor_send.opHash "_send_"
              (sendBranchFn send_layout dtensor_send
                (dtensor_send.inputType.elem == ElemTy.i32))
              syms 0
              (send_layout.mesh.local_devices.zip recv_mesh.local_devices)).2,
            case_branch_index := ord,
            case_branch_table := (GenerateBranches dtensor_send.opName
              dtensor_send.opHash "_send_"
              (sendBranchFn send_layout dtensor_send
                (dtensor_send.inputType.elem == ElemTy.i32))
              syms 0
              (send_layout.mesh.local_devices.zip
                recv_mesh.local_devices)).1.map (fun b => b.name),
            case_is_stateless := false,
            erased := recv_mesh.device_type == "GPU" } := by
  unfold LowerOneToOneDTensorSendToTFHostSend
  simp only [bind_def, pure_def, hext, Res.bind, hord]

theorem oneToOneRecv_eq (send_mesh : Mesh) (recv_layout : Layout)
    (dtensor_recv : DTensorRecv) (fc : Option FuncOp) (cid : Nat) (s : MState)
    (syms : List String) (mesh : Mesh) (ord : OrdinalVal)
    (hext : ExtractDeviceMeshFromOp s cid = .ok (some mesh))
    (hord : GetDeviceOrdinal mesh fc false = .ok ord) :
    LowerOneToOneDTensorRecvToTFHostRecv send_mesh recv_layout dtensor_recv
      ⟨some cid, fc⟩ s syms =
      .ok { branches := (GenerateBranches dtensor_recv.opName
              dtensor_recv.opHash "_receive_"
              (recvBranchFn recv_layout dtensor_recv
                (if dtensor_recv.type.elem == ElemTy.i32 then
                  ⟨dtensor_recv.type.shape, ElemTy.i64⟩
                 else ⟨dtensor_recv.type.shape, dtensor_recv.type.elem⟩))
              syms 0
              (send_mesh.local_devices.zip recv_layout.mesh.local_devices)).1,
            symbols := (GenerateBranches dtensor_recv.opName
              dtensor_recv.opHash "_receive_"
              (recvBranchFn recv_layout dtensor_recv
                (if dtensor_recv.type.elem == ElemTy.i32 then
                  ⟨dtensor_recv.type.shape, ElemTy.i64⟩
                 else ⟨dtensor_recv.type.shape, dtensor_recv.type.elem⟩))
              syms 0
              (send_mesh.local_devices.zip recv_layout.mesh.local_devices)).2,
            case_branch_index := ord,
            case_branch_table := (GenerateBranches dtensor_recv.opName
              dtensor_recv.opHash "_receive_"
              (recvBranchFn recv_layout dtensor_recv
                (if dtensor_recv.type.elem == ElemTy.i32 then
                  ⟨dtensor_recv.type.shape, ElemTy.i64⟩
                 else ⟨dtensor_recv.type.shape, dtensor_recv.type.elem⟩))
              syms 0
              (send_mesh.local_devices.zip
                recv_layout.mesh.local_devices)).1.map (fun b => b.name),
            case_output_types :=
              [if dtensor_recv.type.elem == ElemTy.i32 then
                ⟨dtensor_recv.type.shape, ElemTy.i64⟩
               else ⟨dtensor_recv.type.shape, dtensor_recv.type.elem⟩],
            case_is_stateless := false,
            cast_after_case :=
              if dtensor_recv.type.elem == ElemTy.i32 then
                some ⟨dtensor_recv.type.shape, dtensor_recv.type.elem⟩
              else none,
            redirect :=
              if dtensor_recv.type.elem == ElemTy.i32 then
                RedirectTarget.castResult
              else RedirectTarget.caseResult,
            erased := true } := by
  unfold LowerOneToOneDTensorRecvToTFHostRecv
  simp only [bind_def, pure_def, hext, Res.bind, hord, LocalTypeFromGlobalType]

/-- C4: For every branching one-to-one lowering over N device pairs (send and
receive variants), exactly N private subprograms are generated, each inserted
into the module symbol table with a name distinct from every other symbol
(derived from the op name, the structural hash and the pair index), and the
emitted `tf.Case` branch-table length equals N. Freshness of the generated
names with respect to the pre-existing module symbols is a hypothesis (the
hash serves that purpose in practice). -/
theorem oneToOne_branch_generation_spec
    (send_layout : Layout) (recv_mesh : Mesh) (dtensor_send : DTensorSend)
    (fc : Option FuncOp) (cid : Nat) (s : MState) (syms : List String)
    (mesh : Mesh) (ord : OrdinalVal)
    (send_mesh : Mesh) (recv_layout : Layout) (dtensor_recv : DTensorRecv)
    (fc2 : Option FuncOp) (cid2 : Nat) (s2 : MState) (syms2 : List String)
    (mesh2 : Mesh) (ord2 : OrdinalVal)
    (hext : ExtractDeviceMeshFromOp s cid = .ok (some mesh))
    (hord : GetDeviceOrdinal mesh fc false = .ok ord)
    (hnd : syms.Nodup)
    (hfresh : ∀ nm ∈ namesFrom "_send_" dtensor_send.opName
        dtensor_send.opHash 0
        (send_layout.mesh.local_devices.zip recv_mesh.local_devices).length,
      nm ∉ syms)
    (hext2 : ExtractDeviceMeshFromOp s2 cid2 = .ok (some mesh2))
    (hord2 : GetDeviceOrdinal mesh2 fc2 false = .ok ord2)
    (hnd2 : syms2.Nodup)
    (hfresh2 : ∀ nm ∈ namesFrom "_receive_" dtensor_recv.opName
        dtensor_recv.opHash 0
        (send_mesh.local_devices.zip recv_layout.mesh.local_devices).length,
      nm ∉ syms2) :
    (∃ r, LowerOneToOneDTensorSendToTFHostSend send_layout recv_mesh
        dtensor_send ⟨some cid, fc⟩ s syms = .ok r ∧
      r.branches.length =
        (send_layout.mesh.local_devices.zip recv_mesh.local_devices).length ∧
      r.case_branch_table.length =
        (send_layout.mesh.local_devices.zip recv_mesh.local_devices).length ∧
      (r.branches.map (fun b => b.name)).Nodup ∧
      r.symbols = syms ++ r.branches.map (fun b => b.name) ∧
      r.symbols.Nodup ∧
      (∀ b ∈ r.branches, b.visibility_private = true)) ∧
    (∃ r, LowerOneToOneDTensorRecvToTFHostRecv send_mesh recv_layout
        dtensor_recv ⟨some cid2, fc2⟩ s2 syms2 = .ok r ∧
      r.branches.length =
        (send_mesh.local_devices.zip recv_layout.mesh.local_devices).length ∧
      r.case_branch_table.length =
        (send_mesh.local_devices.zip recv_layout.mesh.local_devices).length ∧
      (r.branches.map (fun b => b.name)).Nodup ∧
      r.symbols = syms2 ++ r.branches.map (fun b => b.name) ∧
      r.symbols.Nodup ∧
      (∀ b ∈ r.branches, b.visibility_private = true)) := by
  constructor
  · refine ⟨_, oneToOneSend_eq send_layout recv_mesh dtensor_send fc cid s
      syms mesh ord hext hord, ?_, ?_, ?_, ?_, ?_, ?_⟩
    · dsimp only
      exact generateBranches_length _ _ _ _ _ _ _
    · dsimp only
      rw [List.length_map]
      exact generateBranches_length _ _ _ _ _ _ _
    · dsimp only
      rw [generateBranches_names]
      exact namesFrom_nodup _ _ _ _ _
    · dsimp only
      exact generateBranches_symbols _ _ _ _ _ _ _
    · dsimp only
      rw [generateBranches_symbols, generateBranches_names]
      refine List.Nodup.append hnd (namesFrom_nodup _ _ _ _ _) ?_
      intro a ha han
      exact hfresh a han ha
    · dsimp only
      exact fun b hb => generateBranches_private _ _ _ _ _ _ _ b hb
  · refine ⟨_, oneToOneRecv_eq send_mesh recv_layout dtensor_recv fc2 cid2 s2
      syms2 mesh2 ord2 hext2 hord2, ?_, ?_, ?_, ?_, ?_, ?_⟩
    · dsimp only
      exact generateBranches_length _ _ _ _ _ _ _
    · dsimp only
      rw [List.length_map]
      exact generateBranches_length _ _ _ _ _ _ _
    · dsimp only
      rw [generateBranches_names]
      exact namesFrom_nodup _ _ _ _ _
    · dsimp only
      exact generateBranches_symbols _ _ _ _ _ _ _
    · dsimp only
      rw [generateBranches_symbols, generateBranches_names]
      refine List.Nodup.append hnd2 (namesFrom_nodup _ _ _ _ _) ?_
      intro a ha han
      exact hfresh2 a han ha
    · dsimp only
      exact fun b hb => generateBranches_private _ _ _ _ _ _ _ b hb

/-- Witness for C4 over two position-paired 2-device meshes. -/
theorem oneToOne_branch_generation_spec_witness :
    (∃ r, LowerOneToOneDTensorSendToTFHostSend
        ⟨⟨2, [0, 1], ["/cpu:0", "/cpu:1"], "CPU"⟩, "ls"⟩
        ⟨2, [0, 1], ["/gpu:0", "/gpu:1"], "GPU"⟩
        ⟨"op", 5, "k", 3, ⟨[], ElemTy.f32⟩,
          ⟨⟨2, [0, 1], ["/gpu:0", "/gpu:1"], "GPU"⟩, "lr"⟩⟩
        ⟨some 0, some ⟨some 0⟩⟩
        ⟨[⟨0, some ⟨2, [0, 1], ["/cpu:0", "/cpu:1"], "CPU"⟩, []⟩], 0⟩ [] =
        .ok r ∧
      r.branches.length = 2 ∧
      r.case_branch_table.length = 2 ∧
      (r.branches.map (fun b => b.name)).Nodup ∧
      r.symbols = [] ++ r.branches.map (fun b => b.name) ∧
      r.symbols.Nodup ∧
      (∀ b ∈ r.branches, b.visibility_private = true)) ∧
    (∃ r, LowerOneToOneDTensorRecvToTFHostRecv
        ⟨2, [0, 1], ["/cpu:0", "/cpu:1"], "CPU"⟩
        ⟨⟨2, [0, 1], ["/gpu:0", "/gpu:1"], "GPU"⟩, "lr"⟩
        ⟨"op2", 6, "k", ⟨⟨2, [0, 1], ["/gpu:0", "/gpu:1"], "GPU"⟩, "lr"⟩,
          ⟨[], ElemTy.f32⟩⟩
        ⟨some 0, some ⟨some 0⟩⟩
        ⟨[⟨0, some ⟨2, [0, 1], ["/cpu:0", "/cpu:1"], "CPU"⟩, []⟩], 0⟩ [] =
        .ok r ∧
      r.branches.length = 2 ∧
      r.case_branch_table.length = 2 ∧
      (r.branches.map (fun b => b.name)).Nodup ∧
      r.symbols = [] ++ r.branches.map (fun b => b.name) ∧
      r.symbols.Nodup ∧
      (∀ b ∈ r.branches, b.visibility_private = true)) :=
  oneToOne_branch_generation_spec
    ⟨⟨2, [0, 1], ["/cpu:0", "/cpu:1"], "CPU"⟩, "ls"⟩
    ⟨2, [0, 1], ["/gpu:0", "/gpu:1"], "GPU"⟩
    ⟨"op", 5, "k", 3, ⟨[], ElemTy.f32⟩,
      ⟨⟨2, [0, 1], ["/gpu:0", "/gpu:1"], "GPU"⟩, "lr"⟩⟩
    (some ⟨some 0⟩) 0
    ⟨[⟨0, some ⟨2, [0, 1], ["/cpu:0", "/cpu:1"], "CPU"⟩, []⟩], 0⟩ []
    ⟨2, [0, 1], ["/cpu:0", "/cpu:1"], "CPU"⟩ ⟨0, 32⟩
    ⟨2, [0, 1], ["/cpu:0", "/cpu:1"], "CPU"⟩
    ⟨⟨2, [0, 1], ["/gpu:0", "/gpu:1"], "GPU"⟩, "lr"⟩
    ⟨"op2", 6, "k", ⟨⟨2, [0, 1], ["/gpu:0", "/gpu:1"], "GPU"⟩, "lr"⟩,
      ⟨[], ElemTy.f32⟩⟩
    (some ⟨some 0⟩) 0
    ⟨[⟨0, some ⟨2, [0, 1], ["/cpu:0", "/cpu:1"], "CPU"⟩, []⟩], 0⟩ []
    ⟨2, [0, 1], ["/cpu:0", "/cpu:1"], "CPU"⟩ ⟨0, 32⟩
    rfl rfl (by decide) (fun nm _ => List.not_mem_nil nm)
    rfl rfl (by decide) (fun nm _ => List.not_mem_nil nm)

/-- C8: A successful one-to-one branching Send lowering erases the abstract
DTensorSend op immediately if and only if the destination mesh backend is the
non-accelerator discrete device kind (the "GPU" backend); for every other
destination backend the abstract op is left in place for a later pass step. -/
theorem oneToOneSend_erasure_spec (send_layout : Layout) (recv_mesh : Mesh)
    (dtensor_send : DTensorSend) (fc : Option FuncOp) (cid : Nat) (s : MState)
    (syms : List String) (mesh : Mesh) (ord : OrdinalVal)
    (hext : ExtractDeviceMeshFromOp s cid = .ok (some mesh))
    (hord : GetDeviceOrdinal mesh fc false = .ok ord) :
    ∃ r, LowerOneToOneDTensorSendToTFHostSend send_layout recv_mesh
        dtensor_send ⟨some cid, fc⟩ s syms = .ok r ∧
      (r.erased = true ↔ recv_mesh.nonAcceleratorDiscrete) := by
  refine ⟨_, oneToOneSend_eq send_layout recv_mesh dtensor_send fc cid s syms
    mesh ord hext hord, ?_⟩
  show (recv_mesh.device_type == "GPU") = true ↔
    recv_mesh.nonAcceleratorDiscrete
  simp [Mesh.nonAcceleratorDiscrete]

/-- Witness for C8 at a GPU destination (erased) and a TPU destination (not
erased). -/
theorem oneToOneSend_erasure_spec_witness :
    (∃ r, LowerOneToOneDTensorSendToTFHostSend
        ⟨⟨2, [0, 1], ["/cpu:0", "/cpu:1"], "CPU"⟩, "ls"⟩
        ⟨2, [0, 1], ["/gpu:0", "/gpu:1"], "GPU"⟩
        ⟨"op", 5, "k", 3, ⟨[], ElemTy.f32⟩,
          ⟨⟨2, [0, 1], ["/gpu:0", "/gpu:1"], "GPU"⟩, "lr"⟩⟩
        ⟨some 0, some ⟨some 0⟩⟩
        ⟨[⟨0, some ⟨2, [0, 1], ["/cpu:0", "/cpu:1"], "CPU"⟩, []⟩], 0⟩ [] =
        .ok r ∧
      (r.erased = true ↔
        Mesh.nonAcceleratorDiscrete ⟨2, [0, 1], ["/gpu:0", "/gpu:1"], "GPU"⟩)) ∧
    (∃ r, LowerOneToOneDTensorSendToTFHostSend
        ⟨⟨2, [0, 1], ["/cpu:0", "/cpu:1"], "CPU"⟩, "ls"⟩
        ⟨2, [0, 1], ["/tpu:0", "/tpu:1"], "TPU"⟩
        ⟨"op", 5, "k", 3, ⟨[], ElemTy.f32⟩,
          ⟨⟨2, [0, 1], ["/tpu:0", "/tpu:1"], "TPU"⟩, "lr"⟩⟩
        ⟨some 0, some ⟨some 0⟩⟩
        ⟨[⟨0, some ⟨2, [0, 1], ["/cpu:0", "/cpu:1"], "CPU"⟩, []⟩], 0⟩ [] =
        .ok r ∧
      (r.erased = true ↔
        Mesh.nonAcceleratorDiscrete ⟨2, [0, 1], ["/tpu:0", "/tpu:1"], "TPU"⟩)) :=
  ⟨oneToOneSend_erasure_spec
      ⟨⟨2, [0, 1], ["/cpu:0", "/cpu:1"], "CPU"⟩, "ls"⟩
      ⟨2, [0, 1], ["/gpu:0", "/gpu:1"], "GPU"⟩
      ⟨"op", 5, "k", 3, ⟨[], ElemTy.f32⟩,
        ⟨⟨2, [0, 1], ["/gpu:0", "/gpu:1"], "GPU"⟩, "lr"⟩⟩
      (some ⟨some 0⟩) 0
      ⟨[⟨0, some ⟨2, [0, 1], ["/cpu:0", "/cpu:1"], "CPU"⟩, []⟩], 0⟩ []
      ⟨2, [0, 1], ["/cpu:0", "/cpu:1"], "CPU"⟩ ⟨0, 32⟩ rfl rfl,
    oneToOneSend_erasure_spec
      ⟨⟨2, [0, 1], ["/cpu:0", "/cpu:1"], "CPU"⟩, "ls"⟩
      ⟨2, [0, 1], ["/tpu:0", "/tpu:1"], "TPU"⟩
      ⟨"op", 5, "k", 3, ⟨[], ElemTy.f32⟩,
        ⟨⟨2, [0, 1], ["/tpu:0", "/tpu:1"], "TPU"⟩, "lr"⟩⟩
      (some ⟨some 0⟩) 0
      ⟨[⟨0, some ⟨2, [0, 1], ["/cpu:0", "/cpu:1"], "CPU"⟩, []⟩], 0⟩ []
      ⟨2, [0, 1], ["/cpu:0", "/cpu:1"], "CPU"⟩ ⟨0, 32⟩ rfl rfl⟩

/-- C10: In the one-to-one branching lowerings the device-pair list is the
position-wise zip of the sending and receiving local-device lists, truncated
to the shorter one: exactly min(|send locals|, |recv locals|) branch
subprograms are generated and no error is raised for a length mismatch. -/
theorem oneToOne_zip_min_spec
    (send_layout : Layout) (recv_mesh : Mesh) (dtensor_send : DTensorSend)
    (fc : Option FuncOp) (cid : Nat) (s : MState) (syms : List String)
    (mesh : Mesh) (ord : OrdinalVal)
    (send_mesh : Mesh) (recv_layout : Layout) (dtensor_recv : DTensorRecv)
    (fc2 : Option FuncOp) (cid2 : Nat) (s2 : MState) (syms2 : List String)
    (mesh2 : Mesh) (ord2 : OrdinalVal)
    (hext : ExtractDeviceMeshFromOp s cid = .ok (some mesh))
    (hord : GetDeviceOrdinal mesh fc false = .ok ord)
    (hext2 : ExtractDeviceMeshFromOp s2 cid2 = .ok (some mesh2))
    (hord2 : GetDeviceOrdinal mesh2 fc2 false = .ok ord2) :
    (∃ r, LowerOneToOneDTensorSendToTFHostSend send_layout recv_mesh
        dtensor_send ⟨some cid, fc⟩ s syms = .ok r ∧
      r.branches.length = min send_layout.mesh.local_devices.length
        recv_mesh.local_devices.length) ∧
    (∃ r, LowerOneToOneDTensorRecvToTFHostRecv send_mesh recv_layout
        dtensor_recv ⟨some cid2, fc2⟩ s2 syms2 = .ok r ∧
      r.branches.length = min send_mesh.local_devices.length
        recv_layout.mesh.local_devices.length) := by
  constructor
  · refine ⟨_, oneToOneSend_eq send_layout recv_mesh dtensor_send fc cid s
      syms mesh ord hext hord, ?_⟩
    dsimp only
    rw [generateBranches_length, List.length_zip]
  · refine ⟨_, oneToOneRecv_eq send_mesh recv_layout dtensor_recv fc2 cid2 s2
      syms2 mesh2 ord2 hext2 hord2, ?_⟩
    dsimp only
    rw [generateBranches_length, List.length_zip]

/-- Witness for C10 at mismatched device lists (2 senders, 3 receivers): two
branch subprograms, no error. -/
theorem oneToOne_zip_min_spec_witness :
    (∃ r, LowerOneToOneDTensorSendToTFHostSend
        ⟨⟨2, [0, 1], ["/cpu:0", "/cpu:1"], "CPU"⟩, "ls"⟩
        ⟨3, [0, 1, 2], ["/gpu:0", "/gpu:1", "/gpu:2"], "GPU"⟩
        ⟨"op", 5, "k", 3, ⟨[], ElemTy.f32⟩,
          ⟨⟨3, [0, 1, 2], ["/gpu:0", "/gpu:1", "/gpu:2"], "GPU"⟩, "lr"⟩⟩
        ⟨some 0, some ⟨some 0⟩⟩
        ⟨[⟨0, some ⟨2, [0, 1], ["/cpu:0", "/cpu:1"], "CPU"⟩, []⟩], 0⟩ [] =
        .ok r ∧
      r.branches.length = min 2 3) ∧
    (∃ r, LowerOneToOneDTensorRecvToTFHostRecv
        ⟨2, [0, 1], ["/cpu:0", "/cpu:1"], "CPU"⟩
        ⟨⟨3, [0, 1, 2], ["/gpu:0", "/gpu:1", "/gpu:2"], "GPU"⟩, "lr"⟩
        ⟨"op2", 6, "k", ⟨⟨3, [0, 1, 2], ["/gpu:0", "/gpu:1", "/gpu:2"], "GPU"⟩,
          "lr"⟩, ⟨[], ElemTy.f32⟩⟩
        ⟨some 0, some ⟨some 0⟩⟩
        ⟨[⟨0, some ⟨2, [0, 1], ["/cpu:0", "/cpu:1"], "CPU"⟩, []⟩], 0⟩ [] =
        .ok r ∧
      r.branches.length = min 2 3) :=
  oneToOne_zip_min_spec
    ⟨⟨2, [0, 1], ["/cpu:0", "/cpu:1"], "CPU"⟩, "ls"⟩
    ⟨3, [0, 1, 2], ["/gpu:0", "/gpu:1", "/gpu:2"], "GPU"⟩
    ⟨"op", 5, "k", 3, ⟨[], ElemTy.f32⟩,
      ⟨⟨3, [0, 1, 2], ["/gpu:0", "/gpu:1", "/gpu:2"], "GPU"⟩, "lr"⟩⟩
    (some ⟨some 0⟩) 0
    ⟨[⟨0, some ⟨2, [0, 1], ["/cpu:0", "/cpu:1"], "CPU"⟩, []⟩], 0⟩ []
    ⟨2, [0, 1], ["/cpu:0", "/cpu:1"], "CPU"⟩ ⟨0, 32⟩
    ⟨2, [0, 1], ["/cpu:0", "/cpu:1"], "CPU"⟩
    ⟨⟨3, [0, 1, 2], ["/gpu:0", "/gpu:1", "/gpu:2"], "GPU"⟩, "lr"⟩
    ⟨"op2", 6, "k", ⟨⟨3, [0, 1, 2], ["/gpu:0", "/gpu:1", "/gpu:2"], "GPU"⟩,
      "lr"⟩, ⟨[], ElemTy.f32⟩⟩
    (some ⟨some 0⟩) 0
    ⟨[⟨0, some ⟨2, [0, 1], ["/cpu:0", "/cpu:1"], "CPU"⟩, []⟩], 0⟩ []
    ⟨2, [0, 1], ["/cpu:0", "/cpu:1"], "CPU"⟩ ⟨0, 32⟩
    rfl rfl rfl rfl

/-- C6: For a one-to-one branching receive lowering of a tensor with 32-bit
integer elements, every receive primitive inside a branch subprogram declares
the widened 64-bit type as its result type, exactly one narrowing cast back to
32 bits is inserted after the `tf.Case` construct (applied to its combined
result), and the users of the abstract DTensorRecv result are redirected to
the cast result, none to the raw Case/receive result. -/
theorem oneToOneRecv_i32_widening_spec (send_mesh : Mesh)
    (recv_layout : Layout) (dtensor_recv : DTensorRecv) (fc : Option FuncOp)
    (cid : Nat) (s : MState) (syms : List String) (mesh : Mesh)
    (ord : OrdinalVal)
    (hext : ExtractDeviceMeshFromOp s cid = .ok (some mesh))
    (hord : GetDeviceOrdinal mesh fc false = .ok ord)
    (helem : dtensor_recv.type.elem = ElemTy.i32) :
    ∃ r, LowerOneToOneDTensorRecvToTFHostRecv send_mesh recv_layout
        dtensor_recv ⟨some cid, fc⟩ s syms = .ok r ∧
      (∀ b ∈ r.branches,
        b.body.recv.outTy = ⟨dtensor_recv.type.shape, ElemTy.i64⟩) ∧
      r.case_output_types = [⟨dtensor_recv.type.shape, ElemTy.i64⟩] ∧
      r.cast_after_case = some ⟨dtensor_recv.type.shape, ElemTy.i32⟩ ∧
      r.redirect = RedirectTarget.castResult ∧
      r.erased = true := by
  have hbe : (dtensor_recv.type.elem == ElemTy.i32) = true := by
    rw [helem]
    rfl
  refine ⟨_, oneToOneRecv_eq send_mesh recv_layout dtensor_recv fc cid s syms
    mesh ord hext hord, ?_, ?_, ?_, ?_, ?_⟩
  · dsimp only
    intro b hb
    have hbody := generateBranches_bodies dtensor_recv.opName
      dtensor_recv.opHash "_receive_"
      (recvBranchFn recv_layout dtensor_recv
        (if dtensor_recv.type.elem == ElemTy.i32 then
          ⟨dtensor_recv.type.shape, ElemTy.i64⟩
         else ⟨dtensor_recv.type.shape, dtensor_recv.type.elem⟩))
      (send_mesh.local_devices.zip recv_layout.mesh.local_devices) syms 0
    have hmem : b.body ∈
        (send_mesh.local_devices.zip recv_layout.mesh.local_devices).map
          (recvBranchFn recv_layout dtensor_recv
            (if dtensor_recv.type.elem == ElemTy.i32 then
              ⟨dtensor_recv.type.shape, ElemTy.i64⟩
             else ⟨dtensor_recv.type.shape, dtensor_recv.type.elem⟩)) := by
      rw [← hbody]
      exact List.mem_map_of_mem _ hb
    obtain ⟨pair, hp, hb2⟩ := List.mem_map.mp hmem
    rw [← hb2]
    show (if dtensor_recv.type.elem == ElemTy.i32 then
        (⟨dtensor_recv.type.shape, ElemTy.i64⟩ : TensorTy)
      else ⟨dtensor_recv.type.shape, dtensor_recv.type.elem⟩) =
      ⟨dtensor_recv.type.shape, ElemTy.i64⟩
    rw [if_pos hbe]
  · dsimp only
    rw [if_pos hbe]
  · dsimp only
    rw [if_pos hbe, helem]
  · dsimp only
    rw [if_pos hbe]
  · rfl

/-- Witness for C6 at a concrete 32-bit-integer receive over paired 2-device
meshes. -/
theorem oneToOneRecv_i32_widening_spec_witness :
    ∃ r, LowerOneToOneDTensorRecvToTFHostRecv
        ⟨2, [0, 1], ["/cpu:0", "/cpu:1"], "CPU"⟩
        ⟨⟨2, [0, 1], ["/gpu:0", "/gpu:1"], "GPU"⟩, "lr"⟩
        ⟨"op2", 6, "k", ⟨⟨2, [0, 1], ["/gpu:0", "/gpu:1"], "GPU"⟩, "lr"⟩,
          ⟨[4], ElemTy.i32⟩⟩
        ⟨some 0, some ⟨some 0⟩⟩
        ⟨[⟨0, some ⟨2, [0, 1], ["/cpu:0", "/cpu:1"], "CPU"⟩, []⟩], 0⟩ [] =
        .ok r ∧
      (∀ b ∈ r.branches, b.body.recv.outTy = ⟨[4], ElemTy.i64⟩) ∧
      r.case_output_types = [⟨[4], ElemTy.i64⟩] ∧
      r.cast_after_case = some ⟨[4], ElemTy.i32⟩ ∧
      r.redirect = RedirectTarget.castResult ∧
      r.erased = true :=
  oneToOneRecv_i32_widening_spec
    ⟨2, [0, 1], ["/cpu:0", "/cpu:1"], "CPU"⟩
    ⟨⟨2, [0, 1], ["/gpu:0", "/gpu:1"], "GPU"⟩, "lr"⟩
    ⟨"op2", 6, "k", ⟨⟨2, [0, 1], ["/gpu:0", "/gpu:1"], "GPU"⟩, "lr"⟩,
      ⟨[4], ElemTy.i32⟩⟩
    (some ⟨some 0⟩) 0
    ⟨[⟨0, some ⟨2, [0, 1], ["/cpu:0", "/cpu:1"], "CPU"⟩, []⟩], 0⟩ []
    ⟨2, [0, 1], ["/cpu:0", "/cpu:1"], "CPU"⟩ ⟨0, 32⟩
    rfl rfl rfl

/-! Failure-kind classification lemmas. -/

theorem iaOnly_ok {α : Type} (a : α) : Res.iaOnly (Res.ok a) := by
  intro h
  simp [typedFailure] at h

theorem iaOnly_crash {α : Type} : Res.iaOnly (Res.crash : Res α) := by
  intro h
  simp [typedFailure] at h

theorem iaOnly_fail_ia {α : Type} (m : String) :
    Res.iaOnly (Res.fail (Err.invalidArgument m) : Res α) := by
  intro h
  rfl

theorem iaOnly_bind {α β : Type} {r : Res α} {f : α → Res β}
    (hr : Res.iaOnly r) (hf : ∀ a, Res.iaOnly (f a)) :
    Res.iaOnly (Res.bind r f) := by
  cases r with
  | ok a => exact hf a
  | fail e =>
    simp only [Res.bind]
    intro _
    have he : invalidArgFailure (Res.fail e : Res α) = true := hr rfl
    cases e with
    | invalidArgument m => rfl
    | internal m => exact absurd he (by simp [invalidArgFailure])
    | unimplemented m => exact absurd he (by simp [invalidArgFailure])
  | crash =>
    simp only [Res.bind]
    exact iaOnly_crash

theorem iaOnly_ite {α : Type} (c : Prop) [Decidable c] {r1 r2 : Res α}
    (h1 : Res.iaOnly r1) (h2 : Res.iaOnly r2) :
    Res.iaOnly (if c then r1 else r2) := by
  by_cases hc : c
  · rwa [if_pos hc]
  · rwa [if_neg hc]

theorem iaOnly_idx {α : Type} (l : List α) (i : Nat) :
    Res.iaOnly (idx l i) := by
  unfold idx
  cases hg : l.get? i with
  | some a => exact iaOnly_ok a
  | none => exact iaOnly_crash

theorem iaOnly_deviceId (f? : Option FuncOp) : Res.iaOnly (DeviceId f?) := by
  cases f? with
  | none => exact iaOnly_crash
  | some f =>
    simp only [DeviceId]
    cases hg : f.deviceId? with
    | none => exact iaOnly_fail_ia _
    | some d => exact iaOnly_ok d

theorem iaOnly_fillTable : ∀ (ids : List Nat) (i : Nat) (t : List Nat),
    Res.iaOnly (fillTable ids i t) := by
  intro ids
  induction ids with
  | nil => intro i t; exact iaOnly_ok t
  | cons id rest ih =>
    intro i t
    simp only [fillTable]
    exact iaOnly_ite _ (ih _ _) iaOnly_crash

theorem iaOnly_getDeviceOrdinal (mesh : Mesh) (f? : Option FuncOp) (b : Bool) :
    Res.iaOnly (GetDeviceOrdinal mesh f? b) := by
  unfold GetDeviceOrdinal
  simp only [bind_def, pure_def]
  refine iaOnly_bind (iaOnly_fillTable _ _ _) (fun table => ?_)
  refine iaOnly_bind (iaOnly_deviceId _) (fun d => ?_)
  refine iaOnly_bind (iaOnly_idx _ _) (fun ord => ?_)
  exact iaOnly_ite _ (iaOnly_ok _) (iaOnly_ok _)

theorem iaOnly_getOrCreate (s : MState) (pc? : Option Nat) :
    Res.iaOnly (GetOrCreateCompilationKey s pc?) := by
  cases pc? with
  | none => exact iaOnly_crash
  | some cid =>
    show Res.iaOnly (getOrCreateCompilationKeyAt s cid)
    cases hf : findCluster s cid with
    | none => rw [getOrCreateAt_none hf]; exact iaOnly_crash
    | some c =>
      cases hp : (clusterPlaceholders c).getLast? with
      | some p => rw [getOrCreateAt_found_some hf hp]; exact iaOnly_ok _
      | none => rw [getOrCreateAt_found_none hf hp]; exact iaOnly_ok _

theorem iaOnly_extract (s : MState) (cid : Nat) :
    Res.iaOnly (ExtractDeviceMeshFromOp s cid) := by
  unfold ExtractDeviceMeshFromOp
  cases hf : findCluster s cid with
  | some c => exact iaOnly_ok _
  | none => exact iaOnly_crash

theorem iaOnly_sendToTF (l : Layout) (v : Nat) (ds : DTensorSend) :
    Res.iaOnly (LowerDTensorSendToTFOp l v ds) := by
  unfold LowerDTensorSendToTFOp
  simp only [bind_def, pure_def]
  exact iaOnly_bind (iaOnly_idx _ _) (fun sd =>
    iaOnly_bind (iaOnly_idx _ _) (fun rd => iaOnly_ok _))

theorem iaOnly_recvToTF (m : Mesh) (dr : DTensorRecv) (ty : TensorTy)
    (ctx : OpCtx) : Res.iaOnly (LowerDTensorRecvToTFOp m dr ty ctx) := by
  obtain ⟨pc, fc⟩ := ctx
  cases pc with
  | none => exact iaOnly_crash
  | some cid =>
    unfold LowerDTensorRecvToTFOp
    simp only [bind_def, pure_def]
    exact iaOnly_bind (iaOnly_idx _ _) (fun sd =>
      iaOnly_bind (iaOnly_idx _ _) (fun rd => iaOnly_ok _))

theorem iaOnly_sendToXla (l : Layout) (v : Nat) (ds : DTensorSend)
    (ctx : OpCtx) (s : MState) (z : Bool) :
    Res.iaOnly (LowerDTensorSendToXlaOp l v ds ctx s z) := by
  obtain ⟨pc, fc⟩ := ctx
  unfold LowerDTensorSendToXlaOp
  simp only [bind_def, pure_def]
  refine iaOnly_ite _ ?_ (iaOnly_ok _)
  refine iaOnly_bind (iaOnly_getOrCreate _ _) (fun pk => ?_)
  refine iaOnly_ite _
    (iaOnly_bind (iaOnly_ok _) (fun ord => iaOnly_ok _)) ?_
  cases pc with
  | none => exact iaOnly_bind (iaOnly_fail_ia _) (fun ord => iaOnly_ok _)
  | some cid =>
    cases fc with
    | none => exact iaOnly_bind (iaOnly_fail_ia _) (fun ord => iaOnly_ok _)
    | some f =>
      exact iaOnly_bind (iaOnly_getDeviceOrdinal _ _ _)
        (fun ord => iaOnly_ok _)

theorem iaOnly_recvToXla (dr : DTensorRecv) (ty : TensorTy) (ctx : OpCtx)
    (s : MState) : Res.iaOnly (LowerDTensorRecvToXlaOp dr ty ctx s) := by
  obtain ⟨pc, fc⟩ := ctx
  unfold LowerDTensorRecvToXlaOp
  simp only [bind_def, pure_def]
  refine iaOnly_ite _ ?_ (iaOnly_ok _)
  cases pc with
  | none => exact iaOnly_crash
  | some cid =>
    refine iaOnly_bind (iaOnly_extract _ _) (fun mesh? => ?_)
    cases mesh? with
    | none => exact iaOnly_fail_ia _
    | some mesh =>
      exact iaOnly_bind (iaOnly_getDeviceOrdinal _ _ _) (fun ord =>
        iaOnly_bind (iaOnly_getOrCreate _ _) (fun pk => iaOnly_ok _))

theorem iaOnly_fanOutSend (l : Layout) (v : Nat) (ds : DTensorSend) :
    Res.iaOnly (LowerDTensorSendFromCPUToTFOp l v ds) := by
  unfold LowerDTensorSendFromCPUToTFOp
  cases hr : ds.target_layout.mesh.local_devices with
  | nil => exact iaOnly_crash
  | cons a as =>
    simp only [bind_def, pure_def]
    exact iaOnly_bind (iaOnly_idx _ _) (fun sd => iaOnly_ok _)

theorem iaOnly_fanOutRecv (m : Mesh) (dr : DTensorRecv) (ctx : OpCtx) :
    Res.iaOnly (LowerDTensorRecvFromCPUToTFOp m dr ctx) := by
  obtain ⟨pc, fc⟩ := ctx
  cases pc with
  | none => exact iaOnly_crash
  | some cid =>
    unfold LowerDTensorRecvFromCPUToTFOp
    cases hr : dr.layout.mesh.local_devices with
    | nil => exact iaOnly_crash
    | cons a as =>
      simp only [bind_def, pure_def]
      exact iaOnly_bind (iaOnly_idx _ _) (fun sd => iaOnly_ok _)

theorem iaOnly_oneToOneSend (sl : Layout) (rm : Mesh) (ds : DTensorSend)
    (ctx : OpCtx) (s : MState) (syms : List String) :
    Res.iaOnly (LowerOneToOneDTensorSendToTFHostSend sl rm ds ctx s syms) := by
  obtain ⟨pc, fc⟩ := ctx
  cases pc with
  | none => exact iaOnly_crash
  | some cid =>
    unfold LowerOneToOneDTensorSendToTFHostSend
    simp only [bind_def, pure_def]
    refine iaOnly_bind (iaOnly_extract _ _) (fun mesh? => ?_)
    cases mesh? with
    | none => exact iaOnly_crash
    | some mesh =>
      exact iaOnly_bind (iaOnly_getDeviceOrdinal _ _ _)
        (fun ord => iaOnly_ok _)

theorem iaOnly_oneToOneRecv (sm : Mesh) (rl : Layout) (dr : DTensorRecv)
    (ctx : OpCtx) (s : MState) (syms : List String) :
    Res.iaOnly (LowerOneToOneDTensorRecvToTFHostRecv sm rl dr ctx s syms) := by
  obtain ⟨pc, fc⟩ := ctx
  cases pc with
  | none => exact iaOnly_crash
  | some cid =>
    unfold LowerOneToOneDTensorRecvToTFHostRecv
    simp only [bind_def, pure_def]
    refine iaOnly_bind (iaOnly_extract _ _) (fun mesh? => ?_)
    cases mesh? with
    | none => exact iaOnly_crash
    | some mesh =>
      refine iaOnly_bind (iaOnly_getDeviceOrdinal _ _ _) (fun ord => ?_)
      exact iaOnly_bind (iaOnly_ok _) (fun lrt => iaOnly_ok _)

/-- C7 counterexample: with the enclosing cluster absent, the one-to-one Send
lowering dereferences the null `getParentOfType` handle unchecked and crashes
instead of returning a typed invalid-argument failure value, contradicting the
claim that every lowering variant turns an absent cluster context into an
invalid-argument typed failure. -/
theorem oneToOneSend_missing_cluster_crashes :
    LowerOneToOneDTensorSendToTFHostSend
      ⟨⟨1, [0], ["/cpu:0"], "CPU"⟩, "ls"⟩ ⟨1, [0], ["/gpu:0"], "GPU"⟩
      ⟨"op", 5, "k", 3, ⟨[], ElemTy.f32⟩, ⟨⟨1, [0], ["/gpu:0"], "GPU"⟩, "lr"⟩⟩
      ⟨none, none⟩ ⟨[], 0⟩ [] = Res.crash := rfl

/-- C7 (amended): every typed Status failure any lowering variant propagates
to its caller is an invalid-argument condition; the host-side Xla send with an
absent enclosing function and the Xla receive with an unresolvable mesh raise
such typed invalid-argument failures; but an absent enclosing cluster is
dereferenced unchecked rather than reported — the one-to-one variants crash
outright, and in the Xla send path the compilation-key walk asserts before the
missing-cluster guard is reached. -/
theorem lowering_error_taxonomy_spec
    (l2 : Layout) (v2 : Nat) (ds2 : DTensorSend) (cid2 : Nat) (s2 : MState)
    (pk : KeyValue × MState)
    (dr3 : DTensorRecv) (ty3 : TensorTy) (cid3 : Nat) (fc4 : Option FuncOp)
    (s3 : MState)
    (l4 : Layout) (m4 : Mesh) (ds4 : DTensorSend) (fc5 : Option FuncOp)
    (s4 : MState) (syms4 : List String)
    (htpu : l2.mesh.is_tpu_mesh = false)
    (hpk : GetOrCreateCompilationKey s2 (some cid2) = .ok pk)
    (hcpu : dr3.layout.mesh.is_cpu_mesh = true)
    (hext3 : ExtractDeviceMeshFromOp s3 cid3 = .ok none) :
    (∀ (l : Layout) (v : Nat) (ds : DTensorSend),
      Res.iaOnly (LowerDTensorSendToTFOp l v ds)) ∧
    (∀ (m : Mesh) (dr : DTensorRecv) (ty : TensorTy) (ctx : OpCtx),
      Res.iaOnly (LowerDTensorRecvToTFOp m dr ty ctx)) ∧
    (∀ (l : Layout) (v : Nat) (ds : DTensorSend) (ctx : OpCtx) (s : MState)
      (z : Bool), Res.iaOnly (LowerDTensorSendToXlaOp l v ds ctx s z)) ∧
    (∀ (dr : DTensorRecv) (ty : TensorTy) (ctx : OpCtx) (s : MState),
      Res.iaOnly (LowerDTensorRecvToXlaOp dr ty ctx s)) ∧
    (∀ (l : Layout) (v : Nat) (ds : DTensorSend),
      Res.iaOnly (LowerDTensorSendFromCPUToTFOp l v ds)) ∧
    (∀ (m : Mesh) (dr : DTensorRecv) (ctx : OpCtx),
      Res.iaOnly (LowerDTensorRecvFromCPUToTFOp m dr ctx)) ∧
    (∀ (sl : Layout) (rm : Mesh) (ds : DTensorSend) (ctx : OpCtx) (s : MState)
      (syms : List String),
      Res.iaOnly (LowerOneToOneDTensorSendToTFHostSend sl rm ds ctx s syms)) ∧
    (∀ (sm : Mesh) (rl : Layout) (dr : DTensorRecv) (ctx : OpCtx) (s : MState)
      (syms : List String),
      Res.iaOnly (LowerOneToOneDTensorRecvToTFHostRecv sm rl dr ctx s syms)) ∧
    LowerDTensorSendToXlaOp l2 v2 ds2 ⟨some cid2, none⟩ s2 false =
      .fail (.invalidArgument "DTensorSend is not inside a FuncOp") ∧
    LowerDTensorRecvToXlaOp dr3 ty3 ⟨some cid3, fc4⟩ s3 =
      .fail (.invalidArgument
        "failed to get device ordinal as mesh for operation is not specified.") ∧
    LowerOneToOneDTensorSendToTFHostSend l4 m4 ds4 ⟨none, fc5⟩ s4 syms4 =
      Res.crash := by
  refine ⟨iaOnly_sendToTF, iaOnly_recvToTF, iaOnly_sendToXla, iaOnly_recvToXla,
    iaOnly_fanOutSend, iaOnly_fanOutRecv, iaOnly_oneToOneSend,
    iaOnly_oneToOneRecv, ?_, ?_, ?_⟩
  · have hc : (!l2.mesh.is_tpu_mesh) = true := by
      rw [htpu]
      rfl
    unfold LowerDTensorSendToXlaOp
    rw [if_pos hc]
    simp only [bind_def, pure_def, hpk, Res.bind]
    rw [if_neg (by simp : ¬(false = true))]
  · unfold LowerDTensorRecvToXlaOp
    rw [if_pos hcpu]
    simp only [bind_def, pure_def, hext3, Res.bind]
  · rfl

/-- Witness for the amended C7: a concrete invalid-argument-only run, the two
concrete typed invalid-argument failures, and the concrete crash. -/
theorem lowering_error_taxonomy_spec_witness :
    Res.iaOnly (LowerDTensorSendToTFOp ⟨⟨1, [0], ["/cpu:0"], "CPU"⟩, "ls"⟩ 7
      ⟨"op", 5, "k", 7, ⟨[], ElemTy.f32⟩,
        ⟨⟨1, [0], ["/cpu:1"], "CPU"⟩, "lr"⟩⟩) ∧
    LowerDTensorSendToXlaOp ⟨⟨1, [0], ["/cpu:0"], "CPU"⟩, "ls"⟩ 7
        ⟨"op", 5, "k", 7, ⟨[], ElemTy.f32⟩,
          ⟨⟨1, [0], ["/tpu:0"], "TPU"⟩, "lr"⟩⟩
        ⟨some 0, none⟩
        ⟨[⟨0, none, [⟨10, true, ⟨[3], ElemTy.str⟩⟩]⟩], 11⟩ false =
      .fail (.invalidArgument "DTensorSend is not inside a FuncOp") ∧
    LowerDTensorRecvToXlaOp
        ⟨"op2", 6, "k", ⟨⟨1, [0], ["/cpu:0"], "CPU"⟩, "lr"⟩,
          ⟨[], ElemTy.f32⟩⟩
        ⟨[], ElemTy.f32⟩ ⟨some 0, none⟩ ⟨[⟨0, none, []⟩], 0⟩ =
      .fail (.invalidArgument
        "failed to get device ordinal as mesh for operation is not specified.") ∧
    LowerOneToOneDTensorSendToTFHostSend
        ⟨⟨1, [0], ["/cpu:0"], "CPU"⟩, "ls"⟩ ⟨1, [0], ["/gpu:0"], "GPU"⟩
        ⟨"op", 5, "k", 3, ⟨[], ElemTy.f32⟩,
          ⟨⟨1, [0], ["/gpu:0"], "GPU"⟩, "lr"⟩⟩
        ⟨none, none⟩ ⟨[], 0⟩ [] = Res.crash := by
  have h := lowering_error_taxonomy_spec
    ⟨⟨1, [0], ["/cpu:0"], "CPU"⟩, "ls"⟩ 7
    ⟨"op", 5, "k", 7, ⟨[], ElemTy.f32⟩, ⟨⟨1, [0], ["/tpu:0"], "TPU"⟩, "lr"⟩⟩
    0 ⟨[⟨0, none, [⟨10, true, ⟨[3], ElemTy.str⟩⟩]⟩], 11⟩
    (⟨0, 10⟩, ⟨[⟨0, none, [⟨10, true, ⟨[3], ElemTy.str⟩⟩]⟩], 11⟩)
    ⟨"op2", 6, "k", ⟨⟨1, [0], ["/cpu:0"], "CPU"⟩, "lr"⟩, ⟨[], ElemTy.f32⟩⟩
    ⟨[], ElemTy.f32⟩ 0 none ⟨[⟨0, none, []⟩], 0⟩
    ⟨⟨1, [0], ["/cpu:0"], "CPU"⟩, "ls"⟩ ⟨1, [0], ["/gpu:0"], "GPU"⟩
    ⟨"op", 5, "k", 3, ⟨[], ElemTy.f32⟩, ⟨⟨1, [0], ["/gpu:0"], "GPU"⟩, "lr"⟩⟩
    none ⟨[], 0⟩ []
    rfl rfl rfl rfl
  exact ⟨h.1 ⟨⟨1, [0], ["/cpu:0"], "CPU"⟩, "ls"⟩ 7
      ⟨"op", 5, "k", 7, ⟨[], ElemTy.f32⟩, ⟨⟨1, [0], ["/cpu:1"], "CPU"⟩, "lr"⟩⟩,
    h.2.2.2.2.2.2.2.2.1, h.2.2.2.2.2.2.2.2.2.1, h.2.2.2.2.2.2.2.2.2.2⟩

end DTensor
